import Mathlib

/-!
# RTP/JPEG depacketizer (`src/codec/jpeg.rs`) — verification development

A shallow embedding of the RFC 2435 RTP/JPEG depacketizer: the quantizer
table generator (`make_tables`), the JPEG header synthesizer
(`make_headers` and its sub-builders), and the fragment reassembly state
machine (`Depacketizer.push`).

Modelling conventions:
* Bytes are `Nat`; wherever the Rust source truncates (`as u8`) the
  embedding applies `% 256` explicitly.
* `&mut self` methods become state-passing functions.  `push` returns
  `Option (Depacketizer × Except String Unit)`: `none` models a panic
  (the `panic!` on an unretrieved pending frame, or an unguarded
  out-of-bounds access, which the source's checks are meant to exclude);
  `some (s, .error e)` models `Err(e)` returned with the (possibly
  mutated) state `s`; `some (s, .ok ())` models `Ok(())`.
* Raw slice indexing that the source performs after an explicit length
  check is modelled by a list pattern match whose fallback arm is the
  panic value `none`, so in-boundedness is a proof obligation, not an
  assumption.
-/

namespace RtpJpeg

/-- `Timestamp` — only the `timestamp: i64` field is ever compared by the
jpeg depacketizer; the clock-rate/start fields are never read by it. -/
structure Timestamp where
  timestamp : Int
  deriving DecidableEq

/-- `VideoParameters` as constructed by the jpeg depacketizer.  The
`pixel_aspect_ratio` field is named `pixelAspect` here. -/
structure VideoParameters where
  pixelDimensions : Nat × Nat
  rfc6381Codec : String
  pixelAspect : Option (Nat × Nat)
  frameRate : Option (Nat × Nat)
  extraData : List Nat
  deriving DecidableEq

/-- An inbound RTP packet, reduced to the fields `push` reads:
`ctx` (the opaque `PacketContext`, modelled as a token), `loss`,
`stream_id`, `timestamp`, the marker bit (`mark`) and the payload bytes. -/
structure ReceivedPacket where
  ctx : Nat
  loss : Nat
  stream_id : Nat
  timestamp : Timestamp
  mark : Bool
  payload : List Nat
  deriving DecidableEq

/-- `VideoFrame` — the published output frame. -/
structure VideoFrame where
  start_ctx : Nat
  end_ctx : Nat
  has_new_parameters : Bool
  loss : Nat
  timestamp : Timestamp
  stream_id : Nat
  is_random_access_point : Bool
  is_disposable : Bool
  data : List Nat
  deriving DecidableEq

/-- `JpegFrameMetadata`. -/
structure JpegFrameMetadata where
  start_ctx : Nat
  timestamp : Timestamp
  parameters : Option VideoParameters
  deriving DecidableEq

/-- The depacketizer state. -/
structure Depacketizer where
  metadata : Option JpegFrameMetadata
  data : List Nat
  qtables : List (Option (List Nat))
  pending : Option VideoFrame
  parameters : Option VideoParameters
  deriving DecidableEq

/-- `MAX_FRAME_LEN`. -/
def MAX_FRAME_LEN : Nat := 2000000

/-- `ZIGZAG`. -/
def ZIGZAG : List Nat :=
  [0, 1, 8, 16, 9, 2, 3, 10,
   17, 24, 32, 25, 18, 11, 4, 5,
   12, 19, 26, 33, 40, 48, 41, 34,
   27, 20, 13, 6, 7, 14, 21, 28,
   35, 42, 49, 56, 57, 50, 43, 36,
   29, 22, 15, 23, 30, 37, 44, 51,
   58, 59, 52, 45, 38, 31, 39, 46,
   53, 60, 61, 54, 47, 55, 62, 63]

/-- `JPEG_LUMA_QUANTIZER` (Table K.1). -/
def JPEG_LUMA_QUANTIZER : List Nat :=
  [16, 11, 10, 16, 24, 40, 51, 61,
   12, 12, 14, 19, 26, 58, 60, 55,
   14, 13, 16, 24, 40, 57, 69, 56,
   14, 17, 22, 29, 51, 87, 80, 62,
   18, 22, 37, 56, 68, 109, 103, 77,
   24, 35, 55, 64, 81, 104, 113, 92,
   49, 64, 78, 87, 103, 121, 120, 101,
   72, 92, 95, 98, 112, 100, 103, 99]

/-- `JPEG_CHROMA_QUANTIZER` (Table K.2). -/
def JPEG_CHROMA_QUANTIZER : List Nat :=
  [17, 18, 24, 47, 99, 99, 99, 99,
   18, 21, 26, 66, 99, 99, 99, 99,
   24, 26, 56, 99, 99, 99, 99, 99,
   47, 66, 99, 99, 99, 99, 99, 99,
   99, 99, 99, 99, 99, 99, 99, 99,
   99, 99, 99, 99, 99, 99, 99, 99,
   99, 99, 99, 99, 99, 99, 99, 99,
   99, 99, 99, 99, 99, 99, 99, 99]

/-- Clamp a natural into `[lo, hi]` (the source clamps nonnegative `i32`
values, so `Nat` clamping is exact). -/
def clampNat (x lo hi : Nat) : Nat := max lo (min x hi)

/-- Port of `make_tables`: quality factor (an `i32`) to the 128-byte
luma+chroma zigzag-ordered quantizer table.  The source writes
`qtable[i]` and `qtable[i + 64]` in one loop over `i < 64`; the embedding
builds the two disjoint halves and appends them.  All intermediate values
are nonnegative and far below `i32` overflow, so `Nat` arithmetic is
exact; `lq.clamp(1, 255) as u8` is the identity on `[1, 255]`. -/
def make_tables (q : Int) : List Nat :=
  let factor : Nat := (max 1 (min q 99)).toNat
  let s : Nat := if factor < 50 then 5000 / factor else 200 - factor * 2
  ((List.range 64).map fun i =>
    clampNat ((JPEG_LUMA_QUANTIZER.getD (ZIGZAG.getD i 0) 0 * s + 50) / 100) 1 255)
  ++ ((List.range 64).map fun i =>
    clampNat ((JPEG_CHROMA_QUANTIZER.getD (ZIGZAG.getD i 0) 0 * s + 50) / 100) 1 255)

/-- `LUM_DC_CODELENS`. -/
def LUM_DC_CODELENS : List Nat := [0, 1, 5, 1, 1, 1, 1, 1, 1, 0, 0, 0, 0, 0, 0, 0]

/-- `LUM_DC_SYMBOLS`. -/
def LUM_DC_SYMBOLS : List Nat := [0, 1, 2, 3, 4, 5, 6, 7, 8, 9, 10, 11]

/-- `LUM_AC_CODELENS`. -/
def LUM_AC_CODELENS : List Nat := [0, 2, 1, 3, 3, 2, 4, 3, 5, 5, 4, 4, 0, 0, 1, 0x7d]

/-- `LUM_AC_SYMBOLS`. -/
def LUM_AC_SYMBOLS : List Nat :=
  [0x01, 0x02, 0x03, 0x00, 0x04, 0x11, 0x05, 0x12,
   0x21, 0x31, 0x41, 0x06, 0x13, 0x51, 0x61, 0x07,
   0x22, 0x71, 0x14, 0x32, 0x81, 0x91, 0xa1, 0x08,
   0x23, 0x42, 0xb1, 0xc1, 0x15, 0x52, 0xd1, 0xf0,
   0x24, 0x33, 0x62, 0x72, 0x82, 0x09, 0x0a, 0x16,
   0x17, 0x18, 0x19, 0x1a, 0x25, 0x26, 0x27, 0x28,
   0x29, 0x2a, 0x34, 0x35, 0x36, 0x37, 0x38, 0x39,
   0x3a, 0x43, 0x44, 0x45, 0x46, 0x47, 0x48, 0x49,
   0x4a, 0x53, 0x54, 0x55, 0x56, 0x57, 0x58, 0x59,
   0x5a, 0x63, 0x64, 0x65, 0x66, 0x67, 0x68, 0x69,
   0x6a, 0x73, 0x74, 0x75, 0x76, 0x77, 0x78, 0x79,
   0x7a, 0x83, 0x84, 0x85, 0x86, 0x87, 0x88, 0x89,
   0x8a, 0x92, 0x93, 0x94, 0x95, 0x96, 0x97, 0x98,
   0x99, 0x9a, 0xa2, 0xa3, 0xa4, 0xa5, 0xa6, 0xa7,
   0xa8, 0xa9, 0xaa, 0xb2, 0xb3, 0xb4, 0xb5, 0xb6,
   0xb7, 0xb8, 0xb9, 0xba, 0xc2, 0xc3, 0xc4, 0xc5,
   0xc6, 0xc7, 0xc8, 0xc9, 0xca, 0xd2, 0xd3, 0xd4,
   0xd5, 0xd6, 0xd7, 0xd8, 0xd9, 0xda, 0xe1, 0xe2,
   0xe3, 0xe4, 0xe5, 0xe6, 0xe7, 0xe8, 0xe9, 0xea,
   0xf1, 0xf2, 0xf3, 0xf4, 0xf5, 0xf6, 0xf7, 0xf8,
   0xf9, 0xfa]

/-- `CHM_DC_CODELENS`. -/
def CHM_DC_CODELENS : List Nat := [0, 3, 1, 1, 1, 1, 1, 1, 1, 1, 1, 0, 0, 0, 0, 0]

/-- `CHM_DC_SYMBOLS`. -/
def CHM_DC_SYMBOLS : List Nat := [0, 1, 2, 3, 4, 5, 6, 7, 8, 9, 10, 11]

/-- `CHM_AC_CODELENS`. -/
def CHM_AC_CODELENS : List Nat := [0, 2, 1, 2, 4, 4, 3, 4, 7, 5, 4, 4, 0, 1, 2, 0x77]

/-- `CHM_AC_SYMBOLS`. -/
def CHM_AC_SYMBOLS : List Nat :=
  [0x00, 0x01, 0x02, 0x03, 0x11, 0x04, 0x05, 0x21,
   0x31, 0x06, 0x12, 0x41, 0x51, 0x07, 0x61, 0x71,
   0x13, 0x22, 0x32, 0x81, 0x08, 0x14, 0x42, 0x91,
   0xa1, 0xb1, 0xc1, 0x09, 0x23, 0x33, 0x52, 0xf0,
   0x15, 0x62, 0x72, 0xd1, 0x0a, 0x16, 0x24, 0x34,
   0xe1, 0x25, 0xf1, 0x17, 0x18, 0x19, 0x1a, 0x26,
   0x27, 0x28, 0x29, 0x2a, 0x35, 0x36, 0x37, 0x38,
   0x39, 0x3a, 0x43, 0x44, 0x45, 0x46, 0x47, 0x48,
   0x49, 0x4a, 0x53, 0x54, 0x55, 0x56, 0x57, 0x58,
   0x59, 0x5a, 0x63, 0x64, 0x65, 0x66, 0x67, 0x68,
   0x69, 0x6a, 0x73, 0x74, 0x75, 0x76, 0x77, 0x78,
   0x79, 0x7a, 0x82, 0x83, 0x84, 0x85, 0x86, 0x87,
   0x88, 0x89, 0x8a, 0x92, 0x93, 0x94, 0x95, 0x96,
   0x97, 0x98, 0x99, 0x9a, 0xa2, 0xa3, 0xa4, 0xa5,
   0xa6, 0xa7, 0xa8, 0xa9, 0xaa, 0xb2, 0xb3, 0xb4,
   0xb5, 0xb6, 0xb7, 0xb8, 0xb9, 0xba, 0xc2, 0xc3,
   0xc4, 0xc5, 0xc6, 0xc7, 0xc8, 0xc9, 0xca, 0xd2,
   0xd3, 0xd4, 0xd5, 0xd6, 0xd7, 0xd8, 0xd9, 0xda,
   0xe2, 0xe3, 0xe4, 0xe5, 0xe6, 0xe7, 0xe8, 0xe9,
   0xea, 0xf2, 0xf3, 0xf4, 0xf5, 0xf6, 0xf7, 0xf8,
   0xf9, 0xfa]

/-- Port of `make_quant_header` (appends a DQT segment to `p`).  The
source's `assert!(qt.len() < 252)` holds at every call site (`qt` has 64
or 128 bytes), under which `qt.len() as u8 + 3` is exact. -/
def make_quant_header (p : List Nat) (qt : List Nat) (table_no : Nat) : List Nat :=
  p ++ [0xff, 0xdb, 0, qt.length + 3, table_no] ++ qt

/-- Port of `make_huffman_header` (appends a DHT segment to `p`).
`(3 + codelens.len() + symbols.len()) as u8` is exact at every call site
(at most 181). -/
def make_huffman_header (p codelens symbols : List Nat) (table_no table_class : Nat) :
    List Nat :=
  p ++ [0xff, 0xc4, 0, 3 + codelens.length + symbols.length,
        (table_class <<< 4) ||| table_no] ++ codelens ++ symbols

/-- Port of `make_dri_header` (appends a DRI segment to `p`). -/
def make_dri_header (p : List Nat) (dri : Nat) : List Nat :=
  p ++ [0xff, 0xdd, 0, 4, (dri >>> 8) % 256, dri % 256]

/-- Port of `make_headers`.  Returns the accumulated byte vector together
with `some errorMessage` when the source returns `Err` — in Rust the
partially built prefix stays in `p`, which the pair captures. -/
def make_headers (p : List Nat) (image_type width height : Nat)
    (qtable : List Nat) (precision dri : Nat) : List Nat × Option String :=
  let p := p ++ [0xff, 0xd8]
  let size := if precision &&& 1 > 0 then 128 else 64
  if qtable.length < size then (p, some "Qtable too small") else
  let p := make_quant_header p (qtable.take size) 0
  let qtable := qtable.drop size
  let size2 := if precision &&& 2 > 0 then 128 else 64
  if qtable.length < size2 then (p, some "Qtable too small") else
  let p := make_quant_header p (qtable.take size2) 1
  let p := if dri ≠ 0 then make_dri_header p dri else p
  let p := p ++ [0xff, 0xc0, 0, 17, 8, (height >>> 8) % 256, height % 256,
                 (width >>> 8) % 256, width % 256, 3,
                 0, if image_type &&& 0x3f = 0 then 0x21 else 0x22, 0,
                 1, 0x11, 1,
                 2, 0x11, 1]
  let p := make_huffman_header p LUM_DC_CODELENS LUM_DC_SYMBOLS 0 0
  let p := make_huffman_header p LUM_AC_CODELENS LUM_AC_SYMBOLS 0 1
  let p := make_huffman_header p CHM_DC_CODELENS CHM_DC_SYMBOLS 1 0
  let p := make_huffman_header p CHM_AC_CODELENS CHM_AC_SYMBOLS 1 1
  let p := p ++ [0xff, 0xda, 0, 12, 3, 0, 0, 1, 0x11, 2, 0x11, 0, 63, 0]
  (p, none)

/-- `Depacketizer::new`. -/
def Depacketizer.new : Depacketizer :=
  { metadata := none
    data := []
    pending := none
    qtables := List.replicate 255 none
    parameters := none }

/-- Outcome of the quantization-table resolution block of `push`
(the `frag_offset == 0` body up to the `match qtable`):
`err` = an early `return Err(..)` with the depacketizer untouched;
`ok qtables qtable precision payload` = fall-through with the (possibly
updated) cache, the resolved `qtable: Option<Bytes>`, the precision byte
and the remaining payload. -/
inductive QuantRes where
  | err (msg : String)
  | ok (qtables : List (Option (List Nat))) (qtable : Option (List Nat))
       (precision : Nat) (payload : List Nat)

/-- The quantization-table resolution block of `push` (source lines
358–414).  A `none` result models a panic: the four-byte table header is
read only behind the `payload.len() < 4` check, and the cache is indexed
with `q` (a `none` from `List.get?` corresponds to an out-of-range
index). -/
def resolve_quant (qtables : List (Option (List Nat))) (q : Nat)
    (payload : List Nat) : Option QuantRes :=
  if 128 ≤ q then
    if payload.length < 4 then some (.err "Too short RTP/JPEG packet")
    else
      match payload with
      | _mbz :: precision :: l1 :: l2 :: rest =>
        let len := l1 * 256 + l2
        if len > rest.length then
          some (.err ("Invalid RTP/JPEG packet. Length " ++ toString len ++
            " larger than payload " ++ toString rest.length))
        else if len = 0 then
          if q = 255 then
            some (.err "Invalid RTP/JPEG packet. Quantization tables not found")
          else
            match qtables[q]? with
            | none => none
            | some slot => some (.ok qtables slot precision (rest.drop len))
        else
          some (.ok qtables (some rest) precision (rest.drop len))
      | _ => none
  else
    match qtables[q]? with
    | none => none
    | some (some t) => some (.ok qtables (some t) 0 payload)
    | some none =>
      let table := make_tables q
      some (.ok (qtables.set q (some table)) (some table) 0 payload)

/-- The EOI-completion step applied to the assembled buffer on the final
fragment: the source reads the last two buffer bytes (`end[0]`, `end[1]`,
in bounds because `len() >= 2` was just checked) and appends
`0xFF 0xD9` when `end[0] != 0xff && end[1] != 0xd9`. -/
def eoiFix (l : List Nat) : List Nat :=
  if l.getD (l.length - 2) 0 ≠ 0xff ∧ l.getD (l.length - 1) 0 ≠ 0xd9
  then l ++ [0xff, 0xd9] else l

/-- The tail of `push` after the `frag_offset == 0` block (source lines
448–499): the `MissingFrameStart` check, the timestamp-mismatch
exception, payload accumulation, frame finalization on the marker bit,
and the overflow guard.  Total: this part of the source cannot panic
(the two-byte tail read is `eoiFix`, behind the `len() < 2` check). -/
def finishPush (self : Depacketizer) (ctx loss stream_id : Nat)
    (timestamp : Timestamp) (last_packet_in_frame : Bool)
    (payload : List Nat) : Depacketizer × Except String Unit :=
  match self.metadata with
  | none => (self, .error "Invalid RTP/JPEG packet. Missing start packet")
  | some metadata =>
    if metadata.timestamp.timestamp ≠ timestamp.timestamp then
      (self, .ok ())
    else
      let data := self.data ++ payload
      if last_packet_in_frame then
        if data.length < 2 then ({ self with data := data }, .ok ())
        else
          let data := eoiFix data
          let has_new_parameters : Bool := decide (self.parameters ≠ metadata.parameters)
          let frame : VideoFrame :=
            { start_ctx := metadata.start_ctx
              end_ctx := ctx
              has_new_parameters := has_new_parameters
              loss := loss
              timestamp := timestamp
              stream_id := stream_id
              is_random_access_point := false
              is_disposable := true
              data := data }
          let self := { self with
            pending := some frame
            data := []
            metadata := none
            parameters := if has_new_parameters then metadata.parameters
                          else self.parameters }
          -- fall through to the overflow guard with `data` now empty
          if self.data.length > MAX_FRAME_LEN then
            ({ self with metadata := none, data := [] }, .ok ())
          else (self, .ok ())
      else
        if data.length > MAX_FRAME_LEN then
          ({ self with metadata := none, data := [] }, .ok ())
        else ({ self with data := data }, .ok ())

/-- The body of `push` after the fixed header and the optional restart
extension have been parsed (`width`/`height` already multiplied by 8,
`dri` resolved, `payload` advanced past the consumed bytes). -/
def pushBody (self : Depacketizer) (ctx loss stream_id : Nat)
    (timestamp : Timestamp) (last_packet_in_frame : Bool)
    (frag_offset type_specific q width height dri : Nat)
    (payload : List Nat) : Option (Depacketizer × Except String Unit) :=
  if frag_offset = 0 then
    match resolve_quant self.qtables q payload with
    | none => none
    | some (.err msg) => some (self, .error msg)
    | some (.ok qtables' qtableOpt precision payload') =>
      match qtableOpt with
      | none =>
        some ({ self with qtables := qtables' },
          .error "Invalid RTP/JPEG packet. Missing quantization tables")
      | some qtable =>
        -- self.data.clear(); make_headers(&mut self.data, ..)?
        match make_headers [] type_specific width height qtable precision dri with
        | (data', some msg) =>
          some ({ self with qtables := qtables', data := data' }, .error msg)
        | (data', none) =>
          let self' : Depacketizer := { self with
            qtables := qtables'
            data := data'
            metadata := some
              { start_ctx := ctx
                timestamp := timestamp
                parameters := some
                  { pixelDimensions := (width, height)
                    rfc6381Codec := ""
                    pixelAspect := none
                    frameRate := none
                    extraData := [] } } }
          some (finishPush self' ctx loss stream_id timestamp last_packet_in_frame payload')
  else
    some (finishPush self ctx loss stream_id timestamp last_packet_in_frame payload)

/-- Port of `Depacketizer::push`.  `none` models a panic (`push` with a
pending frame, or an out-of-bounds access not excluded by the length
checks); otherwise the mutated state is returned together with the
`Ok`/`Err` outcome. -/
def Depacketizer.push (self : Depacketizer) (pkt : ReceivedPacket) :
    Option (Depacketizer × Except String Unit) :=
  if self.pending.isSome then none
  else if pkt.payload.length < 8 then
    some (self, .error "Too short RTP/JPEG packet")
  else
    match pkt.payload with
    | _b0 :: o1 :: o2 :: o3 :: type_specific :: q :: wByte :: hByte :: rest =>
      let frag_offset := o1 * 65536 + o2 * 256 + o3
      let width := wByte * 8
      let height := hByte * 8
      if frag_offset > 0 ∧ self.metadata.isNone then
        some ({ self with metadata := none, data := [] },
          .error "Got JPEG fragment when we have no header")
      else
        -- payload.advance(8) = rest
        if type_specific > 63 then
          if rest.length < 4 then some (self, .error "Too short RTP/JPEG packet")
          else
            match rest with
            | r0 :: r1 :: _r2 :: _r3 :: rest2 =>
              let dri := r0 * 256 + r1
              pushBody self pkt.ctx pkt.loss pkt.stream_id pkt.timestamp pkt.mark
                frag_offset type_specific q width height dri rest2
            | _ => none
        else
          pushBody self pkt.ctx pkt.loss pkt.stream_id pkt.timestamp pkt.mark
            frag_offset type_specific q width height 0 rest
    | _ => none

/-- Port of `Depacketizer::pull` (restricted to the video-frame payload):
takes the pending frame out of its slot. -/
def Depacketizer.pull (self : Depacketizer) : Depacketizer × Option VideoFrame :=
  ({ self with pending := none }, self.pending)

/-! ### Closed forms and run helpers -/

/-- The SOF0 segment bytes emitted by `make_headers`. -/
def sofBytes (image_type width height : Nat) : List Nat :=
  [0xff, 0xc0, 0, 17, 8, (height >>> 8) % 256, height % 256,
   (width >>> 8) % 256, width % 256, 3,
   0, if image_type &&& 0x3f = 0 then 0x21 else 0x22, 0,
   1, 0x11, 1,
   2, 0x11, 1]

/-- The four canonical DHT segments emitted by `make_headers`, in order. -/
def dhtBytes : List Nat :=
  make_huffman_header
    (make_huffman_header
      (make_huffman_header
        (make_huffman_header [] LUM_DC_CODELENS LUM_DC_SYMBOLS 0 0)
        LUM_AC_CODELENS LUM_AC_SYMBOLS 0 1)
      CHM_DC_CODELENS CHM_DC_SYMBOLS 1 0)
    CHM_AC_CODELENS CHM_AC_SYMBOLS 1 1

/-- The SOS segment bytes emitted by `make_headers`. -/
def sosBytes : List Nat := [0xff, 0xda, 0, 12, 3, 0, 0, 1, 0x11, 2, 0x11, 0, 63, 0]

/-- First DQT table size selected by the precision byte. -/
def qtSize0 (precision : Nat) : Nat := if precision &&& 1 > 0 then 128 else 64

/-- Second DQT table size selected by the precision byte. -/
def qtSize1 (precision : Nat) : Nat := if precision &&& 2 > 0 then 128 else 64

/-- Closed form of the byte vector `make_headers` emits on success (see
`make_headers_ok` below): SOI, DQT 0, DQT 1, DRI exactly when the restart
interval is nonzero, then SOF0, the four DHT segments and SOS. -/
def headerBytes (image_type width height : Nat) (qtable : List Nat)
    (precision dri : Nat) : List Nat :=
  [0xff, 0xd8]
  ++ ([0xff, 0xdb, 0, qtSize0 precision + 3, 0] ++ qtable.take (qtSize0 precision))
  ++ ([0xff, 0xdb, 0, qtSize1 precision + 3, 1]
      ++ (qtable.drop (qtSize0 precision)).take (qtSize1 precision))
  ++ (if dri ≠ 0 then [0xff, 0xdd, 0, 4, (dri >>> 8) % 256, dri % 256] else [])
  ++ sofBytes image_type width height
  ++ dhtBytes
  ++ sosBytes

/-- Feed a sequence of packets, threading the state; `none` as soon as one
push panics.  `Ok`/`Err` outcomes are both followed by the next push, as a
caller that logs errors and continues would do. -/
def pushAll (d : Depacketizer) : List ReceivedPacket → Option Depacketizer
  | [] => some d
  | p :: ps =>
    match d.push p with
    | none => none
    | some (d', _) => pushAll d' ps

/-- The entropy chunk a fragment contributes: its payload past the 8-byte
fixed header. -/
def chunkOf (p : ReceivedPacket) : List Nat := p.payload.drop 8

/-- A well-formed continuation fragment of the frame with timestamp `T`:
marker bit `mk`, matching timestamp, an 8-byte fixed header with nonzero
fragment offset, and a `Type` byte ≤ 63 (no restart-marker extension). -/
def IsContFrag (T : Int) (mk : Bool) (p : ReceivedPacket) : Prop :=
  p.mark = mk ∧ p.timestamp.timestamp = T ∧
  ∃ b0 o1 o2 o3 ty q w h tail,
    p.payload = b0 :: o1 :: o2 :: o3 :: ty :: q :: w :: h :: tail ∧
    0 < o1 * 65536 + o2 * 256 + o3 ∧ ty ≤ 63

/-- Boolean view of a push outcome. -/
def isOkE : Except String Unit → Bool
  | .ok _ => true
  | .error _ => false

/-- The scale factor as the specification words it: clamp the quality
factor into `[1, 99]`; below 50 use `5000/q`, otherwise `200 − 2q`. -/
def specScale (q : Int) : Nat :=
  let c := (max 1 (min q 99)).toNat
  if c < 50 then 5000 / c else 200 - 2 * c

/-! ### Concrete inputs used by witnesses and counterexamples -/

/-- A zero timestamp. -/
def ts0 : Timestamp := ⟨0⟩

/-- A second, distinct timestamp. -/
def ts1 : Timestamp := ⟨1⟩

/-- A reassembler in the Accumulating state: frame metadata with
timestamp `ts0` and two buffered bytes, empty cache, nothing pending. -/
def dAcc : Depacketizer :=
  { metadata := some
      { start_ctx := 7
        timestamp := ts0
        parameters := some
          { pixelDimensions := (16, 16)
            rfc6381Codec := ""
            pixelAspect := none
            frameRate := none
            extraData := [] } }
    data := [9, 9]
    qtables := List.replicate 255 none
    pending := none
    parameters := none }

/-- Single-fragment packet whose entropy tail ends `0xFF 0x00`. -/
def pktFF00 : ReceivedPacket :=
  { ctx := 1, loss := 0, stream_id := 0, timestamp := ts0, mark := true,
    payload := [0, 0, 0, 0, 0, 0, 1, 1, 255, 0] }

/-- Offset-0 start packet, `Q = 200`, inline table of 128 declared bytes,
three entropy bytes, not the last fragment. -/
def pktInline200 : ReceivedPacket :=
  { ctx := 1, loss := 0, stream_id := 0, timestamp := ts0, mark := false,
    payload := [0, 0, 0, 0, 0, 200, 2, 2, 0, 0, 0, 128]
      ++ List.replicate 128 7 ++ [1, 2, 3] }

/-- Offset-0 start packet, `Q = 200`, declared table length 0. -/
def pktOmit200 : ReceivedPacket :=
  { ctx := 2, loss := 0, stream_id := 0, timestamp := ts0, mark := false,
    payload := [0, 0, 0, 0, 0, 200, 2, 2, 0, 0, 0, 0] }

/-- Offset-0 start packet with `Q = 0` and differing timestamp `ts1`. -/
def pktStartTs1 : ReceivedPacket :=
  { ctx := 2, loss := 0, stream_id := 0, timestamp := ts1, mark := false,
    payload := [0, 0, 0, 0, 0, 0, 2, 2] }

/-- Start fragment of a 2,000,000-byte assembly: `Q = 0`, 1,999,395
entropy bytes (header synthesis adds 605). -/
def pktBigStart : ReceivedPacket :=
  { ctx := 1, loss := 0, stream_id := 0, timestamp := ts0, mark := false,
    payload := [0, 0, 0, 0, 0, 0, 2, 2] ++ List.replicate 1999395 0 }

/-- Continuation fragment carrying one entropy byte, not last. -/
def pktMid1 : ReceivedPacket :=
  { ctx := 2, loss := 0, stream_id := 0, timestamp := ts0, mark := false,
    payload := [0, 0, 0, 1, 0, 0, 2, 2, 1] }

/-- Final fragment carrying one entropy byte. -/
def pktLast1 : ReceivedPacket :=
  { ctx := 3, loss := 0, stream_id := 0, timestamp := ts0, mark := true,
    payload := [0, 0, 0, 1, 0, 0, 2, 2, 1] }

/-- Final fragment carrying no entropy bytes. -/
def pktLast0 : ReceivedPacket :=
  { ctx := 3, loss := 0, stream_id := 0, timestamp := ts0, mark := true,
    payload := [0, 0, 0, 1, 0, 0, 2, 2] }

/-- Metadata of the frame accumulating in `dBig`. -/
def dBigMeta : JpegFrameMetadata :=
  { start_ctx := 7
    timestamp := ts0
    parameters := some
      { pixelDimensions := (16, 16)
        rfc6381Codec := ""
        pixelAspect := none
        frameRate := none
        extraData := [] } }

/-- A reassembler whose assembly buffer sits exactly at the 2,000,000-byte
bound: one more appended byte trips the overflow guard. -/
def dBig : Depacketizer :=
  { metadata := some dBigMeta
    data := List.replicate 2000000 0
    qtables := List.replicate 255 none
    pending := none
    parameters := none }

/-- Witness fragments: entropy `[9, 8, 7]` split as `[9,8]/[7]`. -/
def pktSplitA1 : ReceivedPacket :=
  { ctx := 0, loss := 0, stream_id := 0, timestamp := ts0, mark := false,
    payload := [0, 0, 0, 0, 0, 0, 2, 2, 9, 8] }

/-- Final fragment shared by both witness fragmentations (chunk `[7]`). -/
def pktSplitA2 : ReceivedPacket :=
  { ctx := 1, loss := 0, stream_id := 0, timestamp := ts0, mark := true,
    payload := [0, 0, 0, 1, 0, 0, 2, 2, 7] }

/-- Witness fragments: entropy `[9, 8, 7]` split as `[9]/[8]/[7]`. -/
def pktSplitB1 : ReceivedPacket :=
  { ctx := 0, loss := 0, stream_id := 0, timestamp := ts0, mark := false,
    payload := [0, 0, 0, 0, 0, 0, 2, 2, 9] }

/-- Middle fragment of the 3-way witness fragmentation (chunk `[8]`). -/
def pktSplitB2 : ReceivedPacket :=
  { ctx := 2, loss := 0, stream_id := 0, timestamp := ts0, mark := false,
    payload := [0, 0, 0, 1, 0, 0, 2, 2, 8] }

/-! ### Basic facts about the pure builders -/

theorem make_tables_length (q : Int) : (make_tables q).length = 128 := by
  simp [make_tables]

theorem sofBytes_length (t w h : Nat) : (sofBytes t w h).length = 19 := by
  by_cases ht : t &&& 0x3f = 0 <;> simp [sofBytes, ht]

set_option maxRecDepth 8192 in
theorem dhtBytes_length : dhtBytes.length = 432 := by decide

theorem sosBytes_length : sosBytes.length = 14 := rfl

theorem make_quant_header_length (p qt : List Nat) (n : Nat) :
    (make_quant_header p qt n).length = p.length + 5 + qt.length := by
  simp [make_quant_header]; omega

/-- `make_headers` succeeds exactly when the quantization payload covers
the two table sizes implied by the precision bits; the emitted bytes then
take the closed form `headerBytes`. -/
theorem make_headers_ok (p : List Nat) (t w h : Nat) (qt : List Nat) (prec dri : Nat)
    (hlen : qtSize0 prec + qtSize1 prec ≤ qt.length) :
    make_headers p t w h qt prec dri = (p ++ headerBytes t w h qt prec dri, none) := by
  have e0 : (if prec &&& 1 > 0 then 128 else 64) = qtSize0 prec := rfl
  have e1 : (if prec &&& 2 > 0 then 128 else 64) = qtSize1 prec := rfl
  have h0 : ¬ qt.length < qtSize0 prec := by omega
  have h1 : ¬ (qt.drop (qtSize0 prec)).length < qtSize1 prec := by
    rw [List.length_drop]; omega
  have ht0 : (qt.take (qtSize0 prec)).length = qtSize0 prec := by
    rw [List.length_take]; omega
  have ht1 : ((qt.drop (qtSize0 prec)).take (qtSize1 prec)).length = qtSize1 prec := by
    rw [List.length_take, List.length_drop]; omega
  simp only [make_headers]
  rw [e0, e1, if_neg h0, if_neg h1]
  simp only [make_quant_header, make_dri_header, make_huffman_header,
    headerBytes, sofBytes, dhtBytes, sosBytes, ht0, ht1]
  by_cases hd : dri = 0 <;>
    simp [hd, make_huffman_header, List.append_assoc]

/-- `make_headers` fails exactly when the quantization payload is shorter
than the sum of the two table sizes implied by the precision bits. -/
theorem make_headers_err_iff (p : List Nat) (t w h : Nat) (qt : List Nat)
    (prec dri : Nat) :
    (make_headers p t w h qt prec dri).2.isSome
      ↔ qt.length < qtSize0 prec + qtSize1 prec := by
  have e0 : (if prec &&& 1 > 0 then 128 else 64) = qtSize0 prec := rfl
  have e1 : (if prec &&& 2 > 0 then 128 else 64) = qtSize1 prec := rfl
  by_cases h0 : qt.length < qtSize0 prec
  · have : qt.length < qtSize0 prec + qtSize1 prec := by
      have : 0 < qtSize1 prec := by unfold qtSize1; split <;> omega
      omega
    simp only [make_headers, e0, e1, if_pos h0]
    simpa using this
  · by_cases h1 : (qt.drop (qtSize0 prec)).length < qtSize1 prec
    · have hl : qt.length < qtSize0 prec + qtSize1 prec := by
        rw [List.length_drop] at h1; omega
      simp only [make_headers, e0, e1, if_neg h0, if_pos h1]
      simpa using hl
    · have hl : ¬ qt.length < qtSize0 prec + qtSize1 prec := by
        rw [List.length_drop] at h1; omega
      simp only [make_headers, e0, e1, if_neg h0, if_neg h1]
      simpa using hl

/-- Length of the closed-form header: 477 framing/DHT bytes plus the two
quantization tables plus the optional 6-byte DRI segment. -/
theorem headerBytes_length (t w h : Nat) (qt : List Nat) (prec dri : Nat)
    (hlen : qtSize0 prec + qtSize1 prec ≤ qt.length) :
    (headerBytes t w h qt prec dri).length
      = 477 + qtSize0 prec + qtSize1 prec + (if dri ≠ 0 then 6 else 0) := by
  have ht0 : (qt.take (qtSize0 prec)).length = qtSize0 prec := by
    rw [List.length_take]; omega
  have ht1 : ((qt.drop (qtSize0 prec)).take (qtSize1 prec)).length = qtSize1 prec := by
    rw [List.length_take, List.length_drop]; omega
  by_cases hd : dri ≠ 0 <;>
    simp [headerBytes, hd, ht0, ht1, sofBytes_length, dhtBytes_length,
      sosBytes_length, List.length_append] <;> omega

/-- The byte vector `make_headers` leaves behind — on success or failure —
never exceeds 743 bytes beyond the prefix it was given. -/
theorem make_headers_fst_le (t w h : Nat) (qt : List Nat) (prec dri : Nat) :
    (make_headers [] t w h qt prec dri).1.length ≤ 743 := by
  have e0 : (if prec &&& 1 > 0 then 128 else 64) = qtSize0 prec := rfl
  have e1 : (if prec &&& 2 > 0 then 128 else 64) = qtSize1 prec := rfl
  have hs0 : qtSize0 prec ≤ 128 := by unfold qtSize0; split <;> omega
  have hs1 : qtSize1 prec ≤ 128 := by unfold qtSize1; split <;> omega
  by_cases h0 : qt.length < qtSize0 prec
  · simp only [make_headers, e0, e1, if_pos h0]
    simp
  · by_cases h1 : (qt.drop (qtSize0 prec)).length < qtSize1 prec
    · simp only [make_headers, e0, e1, if_neg h0, if_pos h1]
      have := make_quant_header_length ([] ++ [0xff, 0xd8]) (qt.take (qtSize0 prec)) 0
      simp only [this]
      have : (qt.take (qtSize0 prec)).length ≤ 128 := by
        rw [List.length_take]; omega
      simp; omega
    · have hlen : qtSize0 prec + qtSize1 prec ≤ qt.length := by
        rw [List.length_drop] at h1; omega
      rw [make_headers_ok _ _ _ _ _ _ _ hlen]
      simp only [List.nil_append]
      rw [headerBytes_length _ _ _ _ _ _ hlen]
      split <;> omega

/-! ### Stepping lemmas: quantization-table resolution -/

theorem resolve_quant_hit (qtables : List (Option (List Nat))) (q : Nat)
    (payload : List Nat) (t : List Nat) (hq : q < 128)
    (hslot : qtables[q]? = some (some t)) :
    resolve_quant qtables q payload = some (.ok qtables (some t) 0 payload) := by
  unfold resolve_quant
  rw [if_neg (by omega), hslot]

theorem resolve_quant_miss (qtables : List (Option (List Nat))) (q : Nat)
    (payload : List Nat) (hq : q < 128)
    (hslot : qtables[q]? = some none) :
    resolve_quant qtables q payload
      = some (.ok (qtables.set q (some (make_tables q))) (some (make_tables q))
          0 payload) := by
  unfold resolve_quant
  rw [if_neg (by omega), hslot]

theorem resolve_quant_inline (qtables : List (Option (List Nat))) (q : Nat)
    (payload : List Nat) (mbz prc l1 l2 : Nat) (rest : List Nat)
    (hq : 128 ≤ q) (hpay : payload = mbz :: prc :: l1 :: l2 :: rest)
    (hpos : 0 < l1 * 256 + l2) (hrem : l1 * 256 + l2 ≤ rest.length) :
    resolve_quant qtables q payload
      = some (.ok qtables (some rest) prc (rest.drop (l1 * 256 + l2))) := by
  unfold resolve_quant
  rw [hpay, if_pos hq, if_neg (by simp)]
  simp only []
  rw [if_neg (by omega), if_neg (by omega)]

theorem resolve_quant_cached (qtables : List (Option (List Nat))) (q : Nat)
    (payload : List Nat) (mbz prc : Nat) (rest : List Nat)
    (slot : Option (List Nat)) (hq : 128 ≤ q) (hq255 : q ≠ 255)
    (hpay : payload = mbz :: prc :: 0 :: 0 :: rest)
    (hslot : qtables[q]? = some slot) :
    resolve_quant qtables q payload = some (.ok qtables slot prc rest) := by
  unfold resolve_quant
  rw [hpay, if_pos hq, if_neg (by simp)]
  simp only []
  simp [hslot, hq255]

theorem resolve_quant_q255 (qtables : List (Option (List Nat)))
    (payload : List Nat) (mbz prc : Nat) (rest : List Nat)
    (hpay : payload = mbz :: prc :: 0 :: 0 :: rest) :
    resolve_quant qtables 255 payload
      = some (.err "Invalid RTP/JPEG packet. Quantization tables not found") := by
  unfold resolve_quant
  rw [hpay, if_pos (show (128 : Nat) ≤ 255 by omega), if_neg (by simp)]
  simp only []
  simp

/-! ### Stepping lemmas: the common tail of `push` -/

theorem finishPush_no_meta (self : Depacketizer) (ctx loss sid : Nat)
    (ts : Timestamp) (mk : Bool) (pay : List Nat)
    (h : self.metadata = none) :
    finishPush self ctx loss sid ts mk pay
      = (self, .error "Invalid RTP/JPEG packet. Missing start packet") := by
  unfold finishPush
  rw [h]

theorem finishPush_ts_mismatch (self : Depacketizer) (ctx loss sid : Nat)
    (ts : Timestamp) (mk : Bool) (pay : List Nat) (m : JpegFrameMetadata)
    (h : self.metadata = some m)
    (hts : m.timestamp.timestamp ≠ ts.timestamp) :
    finishPush self ctx loss sid ts mk pay = (self, .ok ()) := by
  unfold finishPush
  rw [h]
  simp [hts]

theorem finishPush_append (self : Depacketizer) (ctx loss sid : Nat)
    (ts : Timestamp) (pay : List Nat) (m : JpegFrameMetadata)
    (h : self.metadata = some m)
    (hts : m.timestamp.timestamp = ts.timestamp)
    (hlen : (self.data ++ pay).length ≤ MAX_FRAME_LEN) :
    finishPush self ctx loss sid ts false pay
      = ({ self with data := self.data ++ pay }, .ok ()) := by
  unfold finishPush
  rw [h]
  simp only []
  rw [if_neg (by simp [hts]), if_neg (by simp),
    if_neg (by omega : ¬ (self.data ++ pay).length > MAX_FRAME_LEN)]

theorem finishPush_overflow (self : Depacketizer) (ctx loss sid : Nat)
    (ts : Timestamp) (pay : List Nat) (m : JpegFrameMetadata)
    (h : self.metadata = some m)
    (hts : m.timestamp.timestamp = ts.timestamp)
    (hlen : MAX_FRAME_LEN < (self.data ++ pay).length) :
    finishPush self ctx loss sid ts false pay
      = ({ self with metadata := none, data := [] }, .ok ()) := by
  unfold finishPush
  rw [h]
  simp only []
  rw [if_neg (by simp [hts]), if_neg (by simp),
    if_pos (by omega : (self.data ++ pay).length > MAX_FRAME_LEN)]

theorem finishPush_publish (self : Depacketizer) (ctx loss sid : Nat)
    (ts : Timestamp) (pay : List Nat) (m : JpegFrameMetadata)
    (h : self.metadata = some m)
    (hts : m.timestamp.timestamp = ts.timestamp)
    (hlen : 2 ≤ (self.data ++ pay).length) :
    finishPush self ctx loss sid ts true pay
      = ({ self with
            pending := some
              { start_ctx := m.start_ctx
                end_ctx := ctx
                has_new_parameters := decide (self.parameters ≠ m.parameters)
                loss := loss
                timestamp := ts
                stream_id := sid
                is_random_access_point := false
                is_disposable := true
                data := eoiFix (self.data ++ pay) }
            data := []
            metadata := none
            parameters := if decide (self.parameters ≠ m.parameters) = true
                          then m.parameters else self.parameters },
         .ok ()) := by
  unfold finishPush
  rw [h]
  simp only []
  rw [if_neg (by simp [hts]), if_pos trivial,
    if_neg (by omega : ¬ (self.data ++ pay).length < 2),
    if_neg (by simp [MAX_FRAME_LEN] :
      ¬ (List.length ([] : List Nat) > MAX_FRAME_LEN))]

/-! ### Stepping lemmas: entry into `push` -/

theorem push_orphan (self : Depacketizer) (pkt : ReceivedPacket)
    (b0 o1 o2 o3 ty q w h : Nat) (rest : List Nat)
    (hpend : self.pending = none)
    (hpay : pkt.payload = b0 :: o1 :: o2 :: o3 :: ty :: q :: w :: h :: rest)
    (hoff : 0 < o1 * 65536 + o2 * 256 + o3)
    (hmeta : self.metadata = none) :
    self.push pkt = some ({ self with metadata := none, data := [] },
      .error "Got JPEG fragment when we have no header") := by
  unfold Depacketizer.push
  rw [hpay, hpend]
  rw [if_neg (by simp)]
  rw [if_neg (by simp)]
  simp only []
  rw [if_pos (by simp [hmeta]; omega)]

theorem push_start_noext (self : Depacketizer) (pkt : ReceivedPacket)
    (b0 ty q w h : Nat) (rest : List Nat)
    (hpend : self.pending = none)
    (hpay : pkt.payload = b0 :: 0 :: 0 :: 0 :: ty :: q :: w :: h :: rest)
    (hty : ty ≤ 63) :
    self.push pkt = pushBody self pkt.ctx pkt.loss pkt.stream_id pkt.timestamp
      pkt.mark 0 ty q (w * 8) (h * 8) 0 rest := by
  unfold Depacketizer.push
  rw [hpay, hpend]
  rw [if_neg (by simp)]
  rw [if_neg (by simp)]
  simp only []
  rw [if_neg (by simp), if_neg (by omega)]

theorem push_start_ext (self : Depacketizer) (pkt : ReceivedPacket)
    (b0 ty q w h r0 r1 r2 r3 : Nat) (rest2 : List Nat)
    (hpend : self.pending = none)
    (hpay : pkt.payload
      = b0 :: 0 :: 0 :: 0 :: ty :: q :: w :: h :: r0 :: r1 :: r2 :: r3 :: rest2)
    (hty : 63 < ty) :
    self.push pkt = pushBody self pkt.ctx pkt.loss pkt.stream_id pkt.timestamp
      pkt.mark 0 ty q (w * 8) (h * 8) (r0 * 256 + r1) rest2 := by
  unfold Depacketizer.push
  rw [hpay, hpend]
  rw [if_neg (by simp)]
  rw [if_neg (by simp)]
  simp only []
  rw [if_neg (by simp), if_pos (by omega), if_neg (by simp)]

theorem push_cont_noext (self : Depacketizer) (pkt : ReceivedPacket)
    (b0 o1 o2 o3 ty q w h : Nat) (rest : List Nat) (m : JpegFrameMetadata)
    (hpend : self.pending = none)
    (hpay : pkt.payload = b0 :: o1 :: o2 :: o3 :: ty :: q :: w :: h :: rest)
    (hmeta : self.metadata = some m) (hty : ty ≤ 63) :
    self.push pkt = pushBody self pkt.ctx pkt.loss pkt.stream_id pkt.timestamp
      pkt.mark (o1 * 65536 + o2 * 256 + o3) ty q (w * 8) (h * 8) 0 rest := by
  unfold Depacketizer.push
  rw [hpay, hpend]
  rw [if_neg (by simp)]
  rw [if_neg (by simp)]
  simp only []
  rw [if_neg (by simp [hmeta]), if_neg (by omega)]

theorem push_cont_ext (self : Depacketizer) (pkt : ReceivedPacket)
    (b0 o1 o2 o3 ty q w h r0 r1 r2 r3 : Nat) (rest2 : List Nat)
    (m : JpegFrameMetadata)
    (hpend : self.pending = none)
    (hpay : pkt.payload
      = b0 :: o1 :: o2 :: o3 :: ty :: q :: w :: h
          :: r0 :: r1 :: r2 :: r3 :: rest2)
    (hmeta : self.metadata = some m) (hty : 63 < ty) :
    self.push pkt = pushBody self pkt.ctx pkt.loss pkt.stream_id pkt.timestamp
      pkt.mark (o1 * 65536 + o2 * 256 + o3) ty q (w * 8) (h * 8)
      (r0 * 256 + r1) rest2 := by
  unfold Depacketizer.push
  rw [hpay, hpend]
  rw [if_neg (by simp)]
  rw [if_neg (by simp)]
  simp only []
  rw [if_neg (by simp [hmeta]), if_pos (by omega), if_neg (by simp)]

/-! ### Stepping lemmas: `pushBody` -/

theorem pushBody_cont (self : Depacketizer) (ctx loss sid : Nat)
    (ts : Timestamp) (mk : Bool) (off ty q w h dri : Nat) (payload : List Nat)
    (hoff : off ≠ 0) :
    pushBody self ctx loss sid ts mk off ty q w h dri payload
      = some (finishPush self ctx loss sid ts mk payload) := by
  unfold pushBody
  rw [if_neg hoff]

theorem pushBody_start_err (self : Depacketizer) (ctx loss sid : Nat)
    (ts : Timestamp) (mk : Bool) (ty q w h dri : Nat) (payload : List Nat)
    (msg : String)
    (hres : resolve_quant self.qtables q payload = some (.err msg)) :
    pushBody self ctx loss sid ts mk 0 ty q w h dri payload
      = some (self, .error msg) := by
  unfold pushBody
  rw [if_pos rfl, hres]

theorem pushBody_start_missing (self : Depacketizer) (ctx loss sid : Nat)
    (ts : Timestamp) (mk : Bool) (ty q w h dri : Nat)
    (payload payload' : List Nat) (qtables' : List (Option (List Nat)))
    (prec : Nat)
    (hres : resolve_quant self.qtables q payload
      = some (.ok qtables' none prec payload')) :
    pushBody self ctx loss sid ts mk 0 ty q w h dri payload
      = some ({ self with qtables := qtables' },
          .error "Invalid RTP/JPEG packet. Missing quantization tables") := by
  unfold pushBody
  rw [if_pos rfl, hres]

theorem pushBody_start_ok (self : Depacketizer) (ctx loss sid : Nat)
    (ts : Timestamp) (mk : Bool) (ty q w h dri : Nat)
    (payload payload' qtable : List Nat) (qtables' : List (Option (List Nat)))
    (prec : Nat)
    (hres : resolve_quant self.qtables q payload
      = some (.ok qtables' (some qtable) prec payload'))
    (hlen : qtSize0 prec + qtSize1 prec ≤ qtable.length) :
    pushBody self ctx loss sid ts mk 0 ty q w h dri payload
      = some (finishPush
          { self with
            qtables := qtables'
            data := headerBytes ty w h qtable prec dri
            metadata := some
              { start_ctx := ctx
                timestamp := ts
                parameters := some
                  { pixelDimensions := (w, h)
                    rfc6381Codec := ""
                    pixelAspect := none
                    frameRate := none
                    extraData := [] } } }
          ctx loss sid ts mk payload') := by
  unfold pushBody
  rw [if_pos rfl, hres]
  simp only []
  rw [make_headers_ok [] ty w h qtable prec dri hlen]
  simp

/-! ### Small helpers for the table-generator claims -/

theorem getD_map_range (f : Nat → Nat) (n i : Nat) (h : i < n) :
    ((List.range n).map f).getD i 0 = f i := by
  rw [List.getD_eq_getElem?_getD, List.getElem?_map, List.getElem?_range h]
  rfl

theorem clampNat_one_le (x : Nat) : 1 ≤ clampNat x 1 255 := by
  unfold clampNat; omega

theorem clampNat_le_255 (x : Nat) : clampNat x 1 255 ≤ 255 := by
  unfold clampNat; omega

theorem make_tables_eq (q : Int) :
    make_tables q
      = ((List.range 64).map fun i =>
          clampNat ((JPEG_LUMA_QUANTIZER.getD (ZIGZAG.getD i 0) 0 * specScale q + 50)
            / 100) 1 255)
        ++ ((List.range 64).map fun i =>
          clampNat ((JPEG_CHROMA_QUANTIZER.getD (ZIGZAG.getD i 0) 0 * specScale q + 50)
            / 100) 1 255) := by
  simp only [make_tables, specScale]
  by_cases hc : (max 1 (min q 99)).toNat < 50 <;> simp [hc, Nat.mul_comm]

theorem make_tables_getD_lo (q : Int) (i : Nat) (hi : i < 64) :
    (make_tables q).getD i 0
      = clampNat ((JPEG_LUMA_QUANTIZER.getD (ZIGZAG.getD i 0) 0 * specScale q + 50)
          / 100) 1 255 := by
  rw [make_tables_eq q]
  rw [List.getD_append _ _ _ _ (by simpa using hi)]
  exact getD_map_range _ 64 i hi

theorem make_tables_getD_hi (q : Int) (i : Nat) (hi : i < 64) :
    (make_tables q).getD (i + 64) 0
      = clampNat ((JPEG_CHROMA_QUANTIZER.getD (ZIGZAG.getD i 0) 0 * specScale q + 50)
          / 100) 1 255 := by
  rw [make_tables_eq q]
  rw [List.getD_append_right _ _ _ _ (by simp)]
  simp only [List.length_map, List.length_range]
  rw [show i + 64 - 64 = i by omega]
  exact getD_map_range _ 64 i hi

/-- Claim C5: `make_tables` clamps the quality factor into `[1, 99]`,
derives the scale `5000/q` (below 50) or `200 − 2q`, and emits the
deterministic 128-byte table whose byte `i` (for `i < 64`) is
`clamp(round(base_luma[zigzag[i]]·scale/100), 1, 255)` — with round half
up, `(x·scale + 50) / 100` — and whose byte `i + 64` is the same over the
chroma base table; every emitted byte lies in `[1, 255]`.  (Determinism
is immediate: `make_tables` is a pure function of `q`.) -/
theorem c5_make_tables_spec (q : Int) (i : Nat) (hi : i < 64) :
    (make_tables q).length = 128 ∧
    (make_tables q).getD i 0
      = clampNat ((JPEG_LUMA_QUANTIZER.getD (ZIGZAG.getD i 0) 0 * specScale q + 50)
          / 100) 1 255 ∧
    (make_tables q).getD (i + 64) 0
      = clampNat ((JPEG_CHROMA_QUANTIZER.getD (ZIGZAG.getD i 0) 0 * specScale q + 50)
          / 100) 1 255 ∧
    1 ≤ (make_tables q).getD i 0 ∧ (make_tables q).getD i 0 ≤ 255 ∧
    1 ≤ (make_tables q).getD (i + 64) 0 ∧ (make_tables q).getD (i + 64) 0 ≤ 255 := by
  refine ⟨make_tables_length q, make_tables_getD_lo q i hi,
    make_tables_getD_hi q i hi, ?_, ?_, ?_, ?_⟩
  · rw [make_tables_getD_lo q i hi]; exact clampNat_one_le _
  · rw [make_tables_getD_lo q i hi]; exact clampNat_le_255 _
  · rw [make_tables_getD_hi q i hi]; exact clampNat_one_le _
  · rw [make_tables_getD_hi q i hi]; exact clampNat_le_255 _

/-- Witness for C5 at `q = 50`, `i = 0`. -/
theorem c5_make_tables_spec_witness :
    (make_tables 50).length = 128 ∧
    (make_tables 50).getD 0 0
      = clampNat ((JPEG_LUMA_QUANTIZER.getD (ZIGZAG.getD 0 0) 0 * specScale 50 + 50)
          / 100) 1 255 ∧
    (make_tables 50).getD (0 + 64) 0
      = clampNat ((JPEG_CHROMA_QUANTIZER.getD (ZIGZAG.getD 0 0) 0 * specScale 50 + 50)
          / 100) 1 255 ∧
    1 ≤ (make_tables 50).getD 0 0 ∧ (make_tables 50).getD 0 0 ≤ 255 ∧
    1 ≤ (make_tables 50).getD (0 + 64) 0 ∧ (make_tables 50).getD (0 + 64) 0 ≤ 255 :=
  c5_make_tables_spec 50 0 (by decide)

/-- Claim C6: `make_headers` fails exactly when the quantization payload
is shorter than the bytes implied by the precision bits (64 per table,
128 when the table's bit is set); on success the output begins with SOI
immediately followed by a DQT marker, and decomposes as
SOI ++ DQT0 ++ DQT1 ++ (DRI exactly when the restart interval is
nonzero) ++ SOF0 ++ DHT ++ SOS. -/
theorem c6_make_headers_spec (t w h : Nat) (qt : List Nat) (prec dri : Nat) :
    ((make_headers [] t w h qt prec dri).2.isSome
       ↔ qt.length < qtSize0 prec + qtSize1 prec) ∧
    ((make_headers [] t w h qt prec dri).2 = none →
      (make_headers [] t w h qt prec dri).1.take 4 = [0xff, 0xd8, 0xff, 0xdb] ∧
      (make_headers [] t w h qt prec dri).1
        = ([0xff, 0xd8]
            ++ ([0xff, 0xdb, 0, qtSize0 prec + 3, 0] ++ qt.take (qtSize0 prec))
            ++ ([0xff, 0xdb, 0, qtSize1 prec + 3, 1]
                ++ (qt.drop (qtSize0 prec)).take (qtSize1 prec)))
          ++ (if dri ≠ 0 then [0xff, 0xdd, 0, 4, (dri >>> 8) % 256, dri % 256]
              else [])
          ++ (sofBytes t w h ++ dhtBytes ++ sosBytes)) := by
  refine ⟨make_headers_err_iff [] t w h qt prec dri, fun h2 => ?_⟩
  have hlen : qtSize0 prec + qtSize1 prec ≤ qt.length := by
    by_contra hc
    have := (make_headers_err_iff [] t w h qt prec dri).2 (by omega)
    rw [h2] at this
    simp at this
  rw [make_headers_ok [] t w h qt prec dri hlen]
  constructor
  · simp [headerBytes, List.take]
  · simp [headerBytes, List.append_assoc]

set_option maxRecDepth 40000 in
/-- Witness for C6 at a generated table, precision 0, restart interval 3. -/
theorem c6_make_headers_spec_witness :
    (make_headers [] 0 128 128 (make_tables 50) 0 3).2 = none ∧
    (make_headers [] 0 128 128 (make_tables 50) 0 3).1.take 4
      = [0xff, 0xd8, 0xff, 0xdb] := by
  have h2 : (make_headers [] 0 128 128 (make_tables 50) 0 3).2 = none := by decide
  exact ⟨h2, ((c6_make_headers_spec 0 128 128 (make_tables 50) 0 3).2 h2).1⟩

/-- Claim C7: a fragment-offset-0 packet with `Q = 255` whose inline
quantization header declares length 0 always fails with the
invalid-quantization-spec error, whatever the cache holds, and the
depacketizer state — in particular its frame metadata — is exactly as
before the call. -/
theorem c7_q255_length0_fails (self : Depacketizer) (pkt : ReceivedPacket)
    (b0 ty w h mbz prc : Nat) (tail rest : List Nat)
    (hpend : self.pending = none)
    (hpay : pkt.payload = b0 :: 0 :: 0 :: 0 :: ty :: 255 :: w :: h :: tail)
    (hext : (ty ≤ 63 ∧ tail = mbz :: prc :: 0 :: 0 :: rest)
          ∨ (63 < ty ∧ ∃ r0 r1 r2 r3,
              tail = r0 :: r1 :: r2 :: r3 :: mbz :: prc :: 0 :: 0 :: rest)) :
    self.push pkt = some (self,
      .error "Invalid RTP/JPEG packet. Quantization tables not found") := by
  rcases hext with ⟨hty, htail⟩ | ⟨hty, r0, r1, r2, r3, htail⟩
  · rw [push_start_noext self pkt b0 ty 255 w h tail hpend hpay hty]
    rw [pushBody_start_err _ _ _ _ _ _ _ _ _ _ _ _ _
      (resolve_quant_q255 self.qtables tail mbz prc rest htail)]
  · subst htail
    rw [push_start_ext self pkt b0 ty 255 w h r0 r1 r2 r3
      (mbz :: prc :: 0 :: 0 :: rest) hpend hpay hty]
    rw [pushBody_start_err _ _ _ _ _ _ _ _ _ _ _ _ _
      (resolve_quant_q255 self.qtables _ mbz prc rest rfl)]

/-- Witness for C7: fresh depacketizer, `Q = 255`, declared length 0. -/
theorem c7_q255_length0_fails_witness :
    Depacketizer.new.push
      { ctx := 0, loss := 0, stream_id := 0, timestamp := ts0, mark := false,
        payload := [0, 0, 0, 0, 0, 255, 1, 1, 0, 0, 0, 0] }
      = some (Depacketizer.new,
          .error "Invalid RTP/JPEG packet. Quantization tables not found") :=
  c7_q255_length0_fails Depacketizer.new _ 0 0 1 1 0 0 [0, 0, 0, 0] []
    rfl rfl (Or.inl ⟨by decide, rfl⟩)

set_option maxRecDepth 200000 in
/-- Counterexample to claim C8 as stated: with a frame active (timestamp
0), an offset-0 fragment carrying timestamp 1 — a fragment "whose
timestamp differs from the recorded metadata timestamp" — is *not*
ignored: push succeeds but replaces the metadata and rebuilds the buffer,
so the state is not left unchanged. -/
theorem c8_timestamp_mismatch_cx :
    (dAcc.push pktStartTs1).map
      (fun r => (decide (r.1 = dAcc), decide (r.1.metadata = dAcc.metadata),
        isOkE r.2))
      = some (false, false, true) := by decide

/-- Claim C8, amended: a well-formed **continuation** fragment (nonzero
fragment offset, intact fixed header, restart extension present when the
Type byte demands one) delivered while a frame is active with a differing
timestamp yields `Ok` and leaves the whole state unchanged.  (An offset-0
fragment with a differing timestamp instead restarts the frame, see the
counterexample.) -/
theorem c8_timestamp_mismatch_amended (self : Depacketizer)
    (pkt : ReceivedPacket) (m : JpegFrameMetadata)
    (b0 o1 o2 o3 ty q w h : Nat) (tail : List Nat)
    (hpend : self.pending = none) (hmeta : self.metadata = some m)
    (hpay : pkt.payload = b0 :: o1 :: o2 :: o3 :: ty :: q :: w :: h :: tail)
    (hoff : 0 < o1 * 65536 + o2 * 256 + o3)
    (hext : ty ≤ 63 ∨ (63 < ty ∧ ∃ r0 r1 r2 r3 rest2,
      tail = r0 :: r1 :: r2 :: r3 :: rest2))
    (hts : m.timestamp.timestamp ≠ pkt.timestamp.timestamp) :
    self.push pkt = some (self, .ok ()) := by
  rcases hext with hty | ⟨hty, r0, r1, r2, r3, rest2, htail⟩
  · rw [push_cont_noext self pkt b0 o1 o2 o3 ty q w h tail m hpend hpay hmeta hty]
    rw [pushBody_cont self pkt.ctx pkt.loss pkt.stream_id pkt.timestamp pkt.mark
      (o1 * 65536 + o2 * 256 + o3) ty q (w * 8) (h * 8) 0 tail (by omega)]
    rw [finishPush_ts_mismatch self _ _ _ _ _ _ m hmeta hts]
  · subst htail
    rw [push_cont_ext self pkt b0 o1 o2 o3 ty q w h r0 r1 r2 r3 rest2 m
      hpend hpay hmeta hty]
    rw [pushBody_cont self pkt.ctx pkt.loss pkt.stream_id pkt.timestamp pkt.mark
      (o1 * 65536 + o2 * 256 + o3) ty q (w * 8) (h * 8) (r0 * 256 + r1) rest2
      (by omega)]
    rw [finishPush_ts_mismatch self _ _ _ _ _ _ m hmeta hts]

set_option maxRecDepth 200000 in
/-- Witness for amended C8: Accumulating at timestamp 0, continuation
fragment at timestamp 1 is ignored wholesale. -/
theorem c8_timestamp_mismatch_amended_witness :
    dAcc.push
      { ctx := 5, loss := 0, stream_id := 0, timestamp := ts1, mark := false,
        payload := [0, 0, 0, 1, 0, 0, 2, 2, 5] }
      = some (dAcc, .ok ()) :=
  c8_timestamp_mismatch_amended dAcc _
    { start_ctx := 7
      timestamp := ts0
      parameters := some
        { pixelDimensions := (16, 16)
          rfc6381Codec := ""
          pixelAspect := none
          frameRate := none
          extraData := [] } }
    0 0 0 1 0 0 2 2 [5] rfl rfl rfl (by decide) (Or.inl (by decide)) (by decide)

set_option maxRecDepth 200000 in
/-- Counterexample to claim C3 as stated: a reassembler in the
Accumulating state hit by an offset-0 packet whose table resolution fails
(`Q = 200`, declared length 0, empty cache) returns the error but is
*not* left Idle: the state — metadata and partial buffer included — is
exactly what it was. -/
theorem c3_resolution_failure_cx :
    (dAcc.push pktOmit200).map
      (fun r => (decide (r.1 = dAcc), r.1.metadata.isSome, isOkE r.2))
      = some (true, true, false) := by decide

/-- Claim C3, amended: when quantization-table resolution fails on an
offset-0 packet (`Q = 255` with declared length 0, or `Q ≥ 128` with
declared length 0 and an empty cache slot), push propagates the error and
leaves the reassembler state **exactly as it was** — if it was Idle it
stays Idle, but if it was Accumulating the pending metadata and partial
buffer survive. -/
theorem c3_resolution_failure_amended (self : Depacketizer)
    (pkt : ReceivedPacket) (b0 ty q w h mbz prc : Nat) (rest : List Nat)
    (hpend : self.pending = none)
    (hpay : pkt.payload
      = b0 :: 0 :: 0 :: 0 :: ty :: q :: w :: h :: mbz :: prc :: 0 :: 0 :: rest)
    (hty : ty ≤ 63) (hq : 128 ≤ q)
    (hfail : q = 255 ∨ self.qtables[q]? = some none) :
    self.push pkt = some (self, .error
      (if q = 255 then "Invalid RTP/JPEG packet. Quantization tables not found"
       else "Invalid RTP/JPEG packet. Missing quantization tables")) := by
  rw [push_start_noext self pkt b0 ty q w h _ hpend hpay hty]
  by_cases h255 : q = 255
  · subst h255
    rw [pushBody_start_err _ _ _ _ _ _ _ _ _ _ _ _ _
      (resolve_quant_q255 self.qtables _ mbz prc rest rfl)]
    simp
  · rcases hfail with hfail | hslot
    · exact absurd hfail h255
    · rw [pushBody_start_missing self pkt.ctx pkt.loss pkt.stream_id
        pkt.timestamp pkt.mark ty q (w * 8) (h * 8) 0 _ rest self.qtables prc
        (resolve_quant_cached self.qtables q _ mbz prc rest none hq h255 rfl hslot)]
      simp [h255]

set_option maxRecDepth 200000 in
/-- Witness for amended C3: fresh (Idle) depacketizer, `Q = 200`,
declared length 0, empty cache: the error propagates and the state is
untouched. -/
theorem c3_resolution_failure_amended_witness :
    Depacketizer.new.push pktOmit200
      = some (Depacketizer.new, .error
          (if (200 : Nat) = 255
           then "Invalid RTP/JPEG packet. Quantization tables not found"
           else "Invalid RTP/JPEG packet. Missing quantization tables")) :=
  c3_resolution_failure_amended Depacketizer.new pktOmit200 0 0 200 2 2 0 0 []
    rfl rfl (by decide) (by decide) (Or.inr (by decide))

set_option maxRecDepth 200000 in
/-- Counterexample to claim C2 as stated: pushing an offset-0 packet with
`Q = 200` and a 128-byte inline table leaves cache slot 200 empty — the
inline table is *not* stored — and a subsequent offset-0 packet with
`Q = 200` and declared length 0 fails instead of reusing a cached
table. -/
theorem c2_inline_table_not_cached_cx :
    (pushAll Depacketizer.new [pktInline200]).map
        (fun d => (d.qtables.getD 200 none).isSome) = some false
    ∧ pushAll Depacketizer.new [pktInline200, pktOmit200]
        = pushAll Depacketizer.new [pktInline200]
    ∧ (Depacketizer.new.push pktInline200).bind
        (fun r => (r.1.push pktOmit200).map (fun r2 => isOkE r2.2))
        = some false := by
  refine ⟨by decide, by decide, by decide⟩

/-- Claim C2, amended: an offset-0 packet with `Q ≥ 128` and a declared
inline table (length > 0, precision byte 0 here) parses the table header,
uses the declared bytes to synthesize the frame header, and creates the
frame metadata — but the quantization-table cache is left exactly as it
was: the inline table is never stored, so a later `length = 0` packet
with the same `Q` finds whatever was in the cache before (nothing, unless
written by the `Q < 128` generator path). -/
theorem c2_inline_table_amended (self : Depacketizer) (pkt : ReceivedPacket)
    (b0 ty q w h mbz l1 l2 : Nat) (rest : List Nat)
    (hpend : self.pending = none)
    (hpay : pkt.payload
      = b0 :: 0 :: 0 :: 0 :: ty :: q :: w :: h :: mbz :: 0 :: l1 :: l2 :: rest)
    (hty : ty ≤ 63) (hq : 128 ≤ q) (hmk : pkt.mark = false)
    (hpos : 0 < l1 * 256 + l2) (hrem : l1 * 256 + l2 ≤ rest.length)
    (h128 : 128 ≤ rest.length) (hbound : rest.length ≤ 1999000) :
    self.push pkt = some
      ({ self with
          data := headerBytes ty (w * 8) (h * 8) rest 0 0
                    ++ rest.drop (l1 * 256 + l2)
          metadata := some
            { start_ctx := pkt.ctx
              timestamp := pkt.timestamp
              parameters := some
                { pixelDimensions := (w * 8, h * 8)
                  rfc6381Codec := ""
                  pixelAspect := none
                  frameRate := none
                  extraData := [] } } },
        .ok ()) := by
  have hsz : qtSize0 0 + qtSize1 0 ≤ rest.length := by
    simpa [qtSize0, qtSize1] using h128
  rw [push_start_noext self pkt b0 ty q w h _ hpend hpay hty]
  rw [pushBody_start_ok self pkt.ctx pkt.loss pkt.stream_id pkt.timestamp
    pkt.mark ty q (w * 8) (h * 8) 0 _ (rest.drop (l1 * 256 + l2)) rest
    self.qtables 0
    (resolve_quant_inline self.qtables q _ mbz 0 l1 l2 rest hq rfl hpos hrem)
    hsz]
  rw [hmk]
  rw [finishPush_append _ pkt.ctx pkt.loss pkt.stream_id pkt.timestamp
    (rest.drop (l1 * 256 + l2)) _ rfl rfl ?hlen]
  case hlen =>
    rw [List.length_append, headerBytes_length ty (w * 8) (h * 8) rest 0 0 hsz,
      List.length_drop]
    simp only [qtSize0, qtSize1, MAX_FRAME_LEN]
    norm_num
    omega

set_option maxRecDepth 200000 in
/-- Witness for amended C2: fresh depacketizer and the inline-table
packet; cache slot 200 is structurally unchanged (the resulting record
reuses `Depacketizer.new`'s cache field). -/
theorem c2_inline_table_amended_witness :
    Depacketizer.new.push pktInline200 = some
      ({ Depacketizer.new with
          data := headerBytes 0 16 16 (List.replicate 128 7 ++ [1, 2, 3]) 0 0
                    ++ (List.replicate 128 7 ++ [1, 2, 3]).drop 128
          metadata := some
            { start_ctx := 1
              timestamp := ts0
              parameters := some
                { pixelDimensions := (16, 16)
                  rfc6381Codec := ""
                  pixelAspect := none
                  frameRate := none
                  extraData := [] } } },
        .ok ()) := by
  have h := c2_inline_table_amended Depacketizer.new pktInline200
    0 0 200 2 2 0 0 128 (List.replicate 128 7 ++ [1, 2, 3])
    rfl (by decide) (by decide) (by decide) rfl (by decide)
    (by decide) (by decide) (by decide)
  simpa using h

set_option maxRecDepth 200000 in
/-- Claim C1 is refuted by the code (and the code contradicts its own
"Adding EOI marker if necessary" comment): the check
`end[0] != 0xff && end[1] != 0xd9` fails to append an EOI when the buffer
ends in `0xFF 0x00` — not an EOI — so the frame below is published with
final bytes `0xFF 0x00` and length 607 (605-byte header + 2 entropy
bytes, nothing appended). -/
theorem c1_eoi_code_bug :
    (Depacketizer.new.push pktFF00).map
      (fun r => (r.1.pending.map
        (fun f => (f.data.length, f.data.drop (f.data.length - 2))), isOkE r.2))
      = some (some (607, [255, 0]), true) := by decide

/-! ### Shape lemmas and generic reductions for the global theorems -/

theorem exists_cons4 (l : List Nat) (h : 4 ≤ l.length) :
    ∃ a b c d t, l = a :: b :: c :: d :: t := by
  rcases l with _ | ⟨a, l⟩
  · simp at h
  rcases l with _ | ⟨b, l⟩
  · simp at h
  rcases l with _ | ⟨c, l⟩
  · simp at h
  rcases l with _ | ⟨d, l⟩
  · simp at h
  exact ⟨a, b, c, d, l, rfl⟩

theorem exists_cons8 (l : List Nat) (h : 8 ≤ l.length) :
    ∃ a0 a1 a2 a3 a4 a5 a6 a7 t,
      l = a0 :: a1 :: a2 :: a3 :: a4 :: a5 :: a6 :: a7 :: t := by
  obtain ⟨a0, a1, a2, a3, l, rfl⟩ := exists_cons4 l (by omega)
  obtain ⟨a4, a5, a6, a7, t, rfl⟩ := exists_cons4 l (by simp at h; omega)
  exact ⟨a0, a1, a2, a3, a4, a5, a6, a7, t, rfl⟩

theorem push_short (self : Depacketizer) (pkt : ReceivedPacket)
    (hpend : self.pending = none) (hlen : pkt.payload.length < 8) :
    self.push pkt = some (self, .error "Too short RTP/JPEG packet") := by
  unfold Depacketizer.push
  rw [hpend]
  rw [if_neg (by simp), if_pos hlen]

theorem push_ext_short (self : Depacketizer) (pkt : ReceivedPacket)
    (b0 o1 o2 o3 ty q w h : Nat) (rest : List Nat)
    (hpend : self.pending = none)
    (hpay : pkt.payload = b0 :: o1 :: o2 :: o3 :: ty :: q :: w :: h :: rest)
    (horph : ¬(0 < o1 * 65536 + o2 * 256 + o3 ∧ self.metadata.isNone = true))
    (hty : 63 < ty) (h4 : rest.length < 4) :
    self.push pkt = some (self, .error "Too short RTP/JPEG packet") := by
  unfold Depacketizer.push
  rw [hpay, hpend]
  rw [if_neg (by simp)]
  rw [if_neg (by simp)]
  simp only []
  rw [if_neg horph, if_pos hty, if_pos h4]

theorem push_to_body_noext_any (self : Depacketizer) (pkt : ReceivedPacket)
    (b0 o1 o2 o3 ty q w h : Nat) (rest : List Nat)
    (hpend : self.pending = none)
    (hpay : pkt.payload = b0 :: o1 :: o2 :: o3 :: ty :: q :: w :: h :: rest)
    (horph : ¬(0 < o1 * 65536 + o2 * 256 + o3 ∧ self.metadata.isNone = true))
    (hty : ty ≤ 63) :
    self.push pkt = pushBody self pkt.ctx pkt.loss pkt.stream_id pkt.timestamp
      pkt.mark (o1 * 65536 + o2 * 256 + o3) ty q (w * 8) (h * 8) 0 rest := by
  unfold Depacketizer.push
  rw [hpay, hpend]
  rw [if_neg (by simp)]
  rw [if_neg (by simp)]
  simp only []
  rw [if_neg horph, if_neg (by omega)]

theorem push_to_body_ext_any (self : Depacketizer) (pkt : ReceivedPacket)
    (b0 o1 o2 o3 ty q w h r0 r1 r2 r3 : Nat) (rest2 : List Nat)
    (hpend : self.pending = none)
    (hpay : pkt.payload
      = b0 :: o1 :: o2 :: o3 :: ty :: q :: w :: h :: r0 :: r1 :: r2 :: r3 :: rest2)
    (horph : ¬(0 < o1 * 65536 + o2 * 256 + o3 ∧ self.metadata.isNone = true))
    (hty : 63 < ty) :
    self.push pkt = pushBody self pkt.ctx pkt.loss pkt.stream_id pkt.timestamp
      pkt.mark (o1 * 65536 + o2 * 256 + o3) ty q (w * 8) (h * 8)
      (r0 * 256 + r1) rest2 := by
  unfold Depacketizer.push
  rw [hpay, hpend]
  rw [if_neg (by simp)]
  rw [if_neg (by simp)]
  simp only []
  rw [if_neg horph, if_pos hty, if_neg (by simp)]

theorem pushBody_start_mh_err (self : Depacketizer) (ctx loss sid : Nat)
    (ts : Timestamp) (mk : Bool) (ty q w h dri : Nat)
    (payload payload' qtable : List Nat) (qtables' : List (Option (List Nat)))
    (prec : Nat) (data' : List Nat) (msg : String)
    (hres : resolve_quant self.qtables q payload
      = some (.ok qtables' (some qtable) prec payload'))
    (hmh : make_headers [] ty w h qtable prec dri = (data', some msg)) :
    pushBody self ctx loss sid ts mk 0 ty q w h dri payload
      = some ({ self with qtables := qtables', data := data' }, .error msg) := by
  unfold pushBody
  rw [if_pos rfl, hres]
  simp only []
  rw [hmh]

theorem pushBody_start_mh_ok (self : Depacketizer) (ctx loss sid : Nat)
    (ts : Timestamp) (mk : Bool) (ty q w h dri : Nat)
    (payload payload' qtable : List Nat) (qtables' : List (Option (List Nat)))
    (prec : Nat) (data' : List Nat)
    (hres : resolve_quant self.qtables q payload
      = some (.ok qtables' (some qtable) prec payload'))
    (hmh : make_headers [] ty w h qtable prec dri = (data', none)) :
    pushBody self ctx loss sid ts mk 0 ty q w h dri payload
      = some (finishPush
          { self with
            qtables := qtables'
            data := data'
            metadata := some
              { start_ctx := ctx
                timestamp := ts
                parameters := some
                  { pixelDimensions := (w, h)
                    rfc6381Codec := ""
                    pixelAspect := none
                    frameRate := none
                    extraData := [] } } }
          ctx loss sid ts mk payload') := by
  unfold pushBody
  rw [if_pos rfl, hres]
  simp only []
  rw [hmh]

/-- Whatever `finishPush` does, the buffer it leaves behind respects the
`MAX_FRAME_LEN` bound, provided the incoming buffer did. -/
theorem finishPush_data_le (self : Depacketizer) (ctx loss sid : Nat)
    (ts : Timestamp) (mk : Bool) (pay : List Nat)
    (hinv : self.data.length ≤ MAX_FRAME_LEN) :
    (finishPush self ctx loss sid ts mk pay).1.data.length ≤ MAX_FRAME_LEN := by
  unfold finishPush
  cases hm : self.metadata
  · simpa using hinv
  · simp only []
    split_ifs <;> simp_all [MAX_FRAME_LEN] <;> omega

/-- With a byte-ranged `Q` and the 255-slot cache, table resolution never
hits the panic value. -/
theorem resolve_quant_isSome (qtables : List (Option (List Nat))) (q : Nat)
    (payload : List Nat) (hq : q < 256) (hlen : qtables.length = 255) :
    (resolve_quant qtables q payload).isSome = true := by
  have hget : ∀ hq' : q < 255, ∃ slot, qtables[q]? = some slot := by
    intro hq'
    cases hq2 : qtables[q]? with
    | none =>
      rw [List.getElem?_eq_none_iff] at hq2
      omega
    | some s => exact ⟨s, rfl⟩
  unfold resolve_quant
  by_cases hq128 : 128 ≤ q
  · rw [if_pos hq128]
    by_cases h4 : payload.length < 4
    · simp [h4]
    · rw [if_neg h4]
      obtain ⟨a, b, c, d, t, rfl⟩ := exists_cons4 payload (by omega)
      simp only []
      by_cases hgt : c * 256 + d > t.length
      · simp [hgt]
      · rw [if_neg hgt]
        by_cases h0 : c * 256 + d = 0
        · rw [if_pos h0]
          by_cases h255 : q = 255
          · simp [h255]
          · rw [if_neg h255]
            obtain ⟨slot, hslot⟩ := hget (by omega)
            rw [hslot]
            simp
        · simp [h0]
  · rw [if_neg hq128]
    obtain ⟨slot, hslot⟩ := hget (by omega)
    rw [hslot]
    cases slot <;> simp

/-- Claim C10: under the documented preconditions — no completed frame
sitting unretrieved, the 255-slot cache invariant, and 8-bit payload
bytes — `push` never panics: every length check guards its read, the
declared inline-table length is validated before the skip, and the cache
is only ever indexed below 255, so every outcome is `Ok` or `Err`. -/
theorem c10_push_no_panic (self : Depacketizer) (pkt : ReceivedPacket)
    (hpend : self.pending = none)
    (hqlen : self.qtables.length = 255)
    (hbytes : ∀ b ∈ pkt.payload, b < 256) :
    (self.push pkt).isSome = true := by
  by_cases hlen : pkt.payload.length < 8
  · rw [push_short self pkt hpend hlen]
    simp
  obtain ⟨b0, o1, o2, o3, ty, q, w, h, rest, hpay⟩ :=
    exists_cons8 pkt.payload (by omega)
  have hq256 : q < 256 := hbytes q (by rw [hpay]; simp)
  by_cases horph : 0 < o1 * 65536 + o2 * 256 + o3 ∧ self.metadata.isNone = true
  · rw [push_orphan self pkt b0 o1 o2 o3 ty q w h rest hpend hpay horph.1
      (by simpa using horph.2)]
    simp
  have hbody : ∀ dri payload,
      (pushBody self pkt.ctx pkt.loss pkt.stream_id pkt.timestamp pkt.mark
          (o1 * 65536 + o2 * 256 + o3) ty q (w * 8) (h * 8) dri
          payload).isSome = true := by
    intro dri payload
    by_cases hoff : o1 * 65536 + o2 * 256 + o3 = 0
    · rw [hoff]
      unfold pushBody
      rw [if_pos rfl]
      cases hrq : resolve_quant self.qtables q payload with
      | none =>
        have := resolve_quant_isSome self.qtables q payload hq256 hqlen
        rw [hrq] at this
        simp at this
      | some r =>
        cases r with
        | err msg => simp
        | ok qts qtOpt prec pay' =>
          cases qtOpt with
          | none => simp
          | some qt =>
            simp only []
            cases hmh : make_headers [] ty (w * 8) (h * 8) qt prec dri with
            | mk data' e =>
              cases e <;> simp
    · rw [pushBody_cont self pkt.ctx pkt.loss pkt.stream_id pkt.timestamp
        pkt.mark (o1 * 65536 + o2 * 256 + o3) ty q (w * 8) (h * 8) dri payload
        hoff]
      simp
  by_cases hty : 63 < ty
  · by_cases h4 : rest.length < 4
    · rw [push_ext_short self pkt b0 o1 o2 o3 ty q w h rest hpend hpay horph
        hty h4]
      simp
    · obtain ⟨r0, r1, r2, r3, rest2, hrest⟩ := exists_cons4 rest (by omega)
      subst hrest
      rw [push_to_body_ext_any self pkt b0 o1 o2 o3 ty q w h r0 r1 r2 r3 rest2
        hpend hpay horph hty]
      exact hbody _ _
  · rw [push_to_body_noext_any self pkt b0 o1 o2 o3 ty q w h rest
      hpend hpay horph (by omega)]
    exact hbody _ _

set_option maxRecDepth 40000 in
/-- Witness for C10: fresh depacketizer, arbitrary malformed packet. -/
theorem c10_push_no_panic_witness :
    (Depacketizer.new.push
      { ctx := 0, loss := 0, stream_id := 0, timestamp := ts0, mark := false,
        payload := [7] }).isSome = true :=
  c10_push_no_panic Depacketizer.new _ rfl (by decide) (by decide)

/-! ### Start and continuation steps for whole-frame runs -/

theorem push_start_gen_miss (self : Depacketizer) (pkt : ReceivedPacket)
    (b0 ty q w h : Nat) (chunk : List Nat)
    (hpend : self.pending = none)
    (hpay : pkt.payload = b0 :: 0 :: 0 :: 0 :: ty :: q :: w :: h :: chunk)
    (hty : ty ≤ 63) (hq : q < 128) (hmk : pkt.mark = false)
    (hslot : self.qtables[q]? = some none)
    (hbound : 605 + chunk.length ≤ MAX_FRAME_LEN) :
    self.push pkt = some
      ({ self with
          qtables := self.qtables.set q (some (make_tables q))
          data := headerBytes ty (w * 8) (h * 8) (make_tables q) 0 0 ++ chunk
          metadata := some
            { start_ctx := pkt.ctx
              timestamp := pkt.timestamp
              parameters := some
                { pixelDimensions := (w * 8, h * 8)
                  rfc6381Codec := ""
                  pixelAspect := none
                  frameRate := none
                  extraData := [] } } },
        .ok ()) := by
  have hhl : qtSize0 0 + qtSize1 0 ≤ (make_tables q).length := by
    rw [make_tables_length]
    simp [qtSize0, qtSize1]
  have hb2 : (headerBytes ty (w * 8) (h * 8) (make_tables q) 0 0
      ++ chunk).length ≤ MAX_FRAME_LEN := by
    rw [List.length_append, headerBytes_length _ _ _ _ _ _ hhl]
    simp only [qtSize0, qtSize1]
    norm_num
    omega
  rw [push_start_noext self pkt b0 ty q w h chunk hpend hpay hty]
  rw [pushBody_start_ok self pkt.ctx pkt.loss pkt.stream_id pkt.timestamp
    pkt.mark ty q (w * 8) (h * 8) 0 chunk chunk (make_tables q)
    (self.qtables.set q (some (make_tables q))) 0
    (resolve_quant_miss self.qtables q chunk hq hslot) hhl]
  rw [hmk]
  rw [finishPush_append
    { self with
      qtables := self.qtables.set q (some (make_tables q))
      data := headerBytes ty (w * 8) (h * 8) (make_tables q) 0 0
      metadata := some
        { start_ctx := pkt.ctx
          timestamp := pkt.timestamp
          parameters := some
            { pixelDimensions := (w * 8, h * 8)
              rfc6381Codec := ""
              pixelAspect := none
              frameRate := none
              extraData := [] } } }
    pkt.ctx pkt.loss pkt.stream_id pkt.timestamp chunk _ rfl rfl hb2]

theorem push_start_gen_hit (self : Depacketizer) (pkt : ReceivedPacket)
    (b0 ty q w h : Nat) (chunk tbl : List Nat)
    (hpend : self.pending = none)
    (hpay : pkt.payload = b0 :: 0 :: 0 :: 0 :: ty :: q :: w :: h :: chunk)
    (hty : ty ≤ 63) (hq : q < 128) (hmk : pkt.mark = false)
    (hslot : self.qtables[q]? = some (some tbl)) (htbl : tbl.length = 128)
    (hbound : 605 + chunk.length ≤ MAX_FRAME_LEN) :
    self.push pkt = some
      ({ self with
          data := headerBytes ty (w * 8) (h * 8) tbl 0 0 ++ chunk
          metadata := some
            { start_ctx := pkt.ctx
              timestamp := pkt.timestamp
              parameters := some
                { pixelDimensions := (w * 8, h * 8)
                  rfc6381Codec := ""
                  pixelAspect := none
                  frameRate := none
                  extraData := [] } } },
        .ok ()) := by
  have hhl : qtSize0 0 + qtSize1 0 ≤ tbl.length := by
    rw [htbl]
    simp [qtSize0, qtSize1]
  have hb2 : (headerBytes ty (w * 8) (h * 8) tbl 0 0
      ++ chunk).length ≤ MAX_FRAME_LEN := by
    rw [List.length_append, headerBytes_length _ _ _ _ _ _ hhl]
    simp only [qtSize0, qtSize1]
    norm_num
    omega
  rw [push_start_noext self pkt b0 ty q w h chunk hpend hpay hty]
  rw [pushBody_start_ok self pkt.ctx pkt.loss pkt.stream_id pkt.timestamp
    pkt.mark ty q (w * 8) (h * 8) 0 chunk chunk tbl self.qtables 0
    (resolve_quant_hit self.qtables q chunk tbl hq hslot) hhl]
  rw [hmk]
  rw [finishPush_append
    { self with
      qtables := self.qtables
      data := headerBytes ty (w * 8) (h * 8) tbl 0 0
      metadata := some
        { start_ctx := pkt.ctx
          timestamp := pkt.timestamp
          parameters := some
            { pixelDimensions := (w * 8, h * 8)
              rfc6381Codec := ""
              pixelAspect := none
              frameRate := none
              extraData := [] } } }
    pkt.ctx pkt.loss pkt.stream_id pkt.timestamp chunk _ rfl rfl hb2]

theorem pushAll_append (xs ys : List ReceivedPacket) : ∀ d : Depacketizer,
    pushAll d (xs ++ ys) = (pushAll d xs).bind fun d' => pushAll d' ys := by
  induction xs with
  | nil => intro d; simp [pushAll]
  | cons x xs ih =>
    intro d
    simp only [List.cons_append, pushAll]
    cases d.push x with
    | none => simp
    | some r =>
      cases r with
      | mk d' e => simp [ih]

/-- Feeding any sequence of well-formed, timestamp-matching, unmarked
continuation fragments to an Accumulating reassembler appends exactly
their concatenated entropy chunks, provided the buffer stays within the
overflow bound. -/
theorem pushAll_cont (T : Int) (ps : List ReceivedPacket) :
    ∀ (d : Depacketizer) (m : JpegFrameMetadata),
    (∀ p ∈ ps, IsContFrag T false p) →
    d.pending = none → d.metadata = some m → m.timestamp.timestamp = T →
    d.data.length + ((ps.map chunkOf).flatten).length ≤ MAX_FRAME_LEN →
    pushAll d ps = some { d with data := d.data ++ (ps.map chunkOf).flatten } := by
  induction ps with
  | nil =>
    intro d m _ _ _ _ _
    simp [pushAll]
  | cons p ps ih =>
    intro d m hall hpend hmeta hts hbound
    obtain ⟨hmk, hpts, b0, o1, o2, o3, ty, q, w, h, tail, hpay, hoff, hty⟩ :=
      hall p (by simp)
    have hchunk : chunkOf p = tail := by simp [chunkOf, hpay]
    have hblen : d.data.length + tail.length
        + (((ps.map chunkOf).flatten).length) ≤ MAX_FRAME_LEN := by
      have : ((p :: ps).map chunkOf).flatten = tail ++ (ps.map chunkOf).flatten := by
        simp [hchunk]
      rw [this] at hbound
      simp only [List.length_append] at hbound
      omega
    have h1 : m.timestamp.timestamp = p.timestamp.timestamp := by rw [hts, hpts]
    have h2 : (d.data ++ tail).length ≤ MAX_FRAME_LEN := by
      simp only [List.length_append]
      omega
    have hstep : d.push p = some ({ d with data := d.data ++ tail }, .ok ()) := by
      rw [push_cont_noext d p b0 o1 o2 o3 ty q w h tail m hpend hpay hmeta hty]
      rw [pushBody_cont d p.ctx p.loss p.stream_id p.timestamp p.mark
        (o1 * 65536 + o2 * 256 + o3) ty q (w * 8) (h * 8) 0 tail (by omega)]
      rw [hmk]
      rw [finishPush_append d p.ctx p.loss p.stream_id p.timestamp tail m hmeta
        h1 h2]
    simp only [pushAll]
    rw [hstep]
    simp only []
    rw [ih { d with data := d.data ++ tail } m
      (fun p' hp' => hall p' (by simp [hp']))
      hpend hmeta hts
      (by simp only [List.length_append]; omega)]
    simp [hchunk, List.append_assoc]

/-- Claim C9: the overflow guard bounds the assembly buffer and resets
the reassembler.  (1) If a push starts with the buffer within
`MAX_FRAME_LEN` (2,000,000 bytes) it ends within it, whatever the packet
— so at the end of every push either the frame was just published
(buffer moved out and emptied) or the buffer holds at most 2,000,000
bytes.  (2) When a continuation fragment of the active frame (matching
timestamp, marker clear — the frame has not completed) would push the
buffer past the bound, the call returns `Ok` with the pending metadata
discarded and the buffer emptied — the resulting state is exactly the
reset of the old one — and (3) a next fragment-offset-0 packet then
starts a fresh frame on that state with no residual bytes: its buffer
becomes exactly the newly synthesized header followed by that packet's
own entropy chunk. -/
theorem c9_overflow_guard (self : Depacketizer) (pkt : ReceivedPacket)
    (res : Depacketizer × Except String Unit)
    (hpush : self.push pkt = some res)
    (hinv : self.data.length ≤ MAX_FRAME_LEN) :
    res.1.data.length ≤ MAX_FRAME_LEN ∧
    (∀ (b0 o1 o2 o3 ty q w h : Nat) (tail chunk : List Nat)
        (m : JpegFrameMetadata),
      pkt.payload = b0 :: o1 :: o2 :: o3 :: ty :: q :: w :: h :: tail →
      0 < o1 * 65536 + o2 * 256 + o3 →
      ((ty ≤ 63 ∧ chunk = tail)
        ∨ (63 < ty ∧ ∃ r0 r1 r2 r3, tail = r0 :: r1 :: r2 :: r3 :: chunk)) →
      pkt.mark = false →
      self.metadata = some m →
      m.timestamp.timestamp = pkt.timestamp.timestamp →
      MAX_FRAME_LEN < self.data.length + chunk.length →
      res = ({ self with metadata := none, data := [] }, .ok ())
      ∧ res.1.metadata = none ∧ res.1.data = []
      ∧ (∀ (pkt' : ReceivedPacket) (b0' ty' q' w' h' : Nat)
            (chunk' : List Nat) (slot' : Option (List Nat)),
          pkt'.payload = b0' :: 0 :: 0 :: 0 :: ty' :: q' :: w' :: h' :: chunk' →
          ty' ≤ 63 → q' < 128 → pkt'.mark = false →
          res.1.qtables[q']? = some slot' →
          (slot'.getD (make_tables q')).length = 128 →
          605 + chunk'.length ≤ MAX_FRAME_LEN →
          ∃ qts', res.1.push pkt' = some
            ({ res.1 with
                qtables := qts'
                data := headerBytes ty' (w' * 8) (h' * 8)
                  (slot'.getD (make_tables q')) 0 0 ++ chunk'
                metadata := some
                  { start_ctx := pkt'.ctx
                    timestamp := pkt'.timestamp
                    parameters := some
                      { pixelDimensions := (w' * 8, h' * 8)
                        rfc6381Codec := ""
                        pixelAspect := none
                        frameRate := none
                        extraData := [] } } }, .ok ()))) := by
  have hpd : self.pending = none := by
    cases hp : self.pending with
    | none => rfl
    | some f =>
      unfold Depacketizer.push at hpush
      rw [if_pos (by simp [hp])] at hpush
      exact absurd hpush (by simp)
  refine ⟨?_, ?_⟩
  · -- (1) the buffer bound
    by_cases hpend : self.pending = none
    case neg =>
      unfold Depacketizer.push at hpush
      rw [if_pos (by cases hp : self.pending <;> simp_all)] at hpush
      exact absurd hpush (by simp)
    case pos =>
    by_cases hlen : pkt.payload.length < 8
    · rw [push_short self pkt hpend hlen] at hpush
      cases hpush
      simpa using hinv
    obtain ⟨b0, o1, o2, o3, ty, q, w, h, rest, hpay⟩ :=
      exists_cons8 pkt.payload (by omega)
    by_cases horph : 0 < o1 * 65536 + o2 * 256 + o3 ∧ self.metadata.isNone = true
    · rw [push_orphan self pkt b0 o1 o2 o3 ty q w h rest hpend hpay horph.1
        (by simpa using horph.2)] at hpush
      cases hpush
      simp [MAX_FRAME_LEN]
    -- no orphan: reduce to `pushBody`, for either Type-byte shape
    have hbody : ∀ dri payload,
        pushBody self pkt.ctx pkt.loss pkt.stream_id pkt.timestamp pkt.mark
            (o1 * 65536 + o2 * 256 + o3) ty q (w * 8) (h * 8) dri payload
          = some res →
        res.1.data.length ≤ MAX_FRAME_LEN := by
      intro dri payload hb
      by_cases hoff : o1 * 65536 + o2 * 256 + o3 = 0
      · rw [hoff] at hb
        unfold pushBody at hb
        rw [if_pos rfl] at hb
        cases hrq : resolve_quant self.qtables q payload with
        | none => rw [hrq] at hb; exact absurd hb (by simp)
        | some r =>
          rw [hrq] at hb
          cases r with
          | err msg =>
            simp only [] at hb
            cases hb
            simpa using hinv
          | ok qts qtOpt prec pay' =>
            cases qtOpt with
            | none =>
              simp only [] at hb
              cases hb
              simpa using hinv
            | some qt =>
              simp only [] at hb
              cases hmh : make_headers [] ty (w * 8) (h * 8) qt prec dri with
              | mk data' e =>
                have hd' : data'.length ≤ MAX_FRAME_LEN := by
                  have h743 := make_headers_fst_le ty (w * 8) (h * 8) qt prec dri
                  rw [hmh] at h743
                  simp only [MAX_FRAME_LEN]
                  simp only [] at h743
                  omega
                rw [hmh] at hb
                cases e with
                | some msg =>
                  simp only [] at hb
                  cases hb
                  simpa using hd'
                | none =>
                  simp only [] at hb
                  cases hb
                  exact finishPush_data_le _ _ _ _ _ _ _ (by simpa using hd')
      · rw [pushBody_cont self pkt.ctx pkt.loss pkt.stream_id pkt.timestamp
          pkt.mark (o1 * 65536 + o2 * 256 + o3) ty q (w * 8) (h * 8) dri payload
          hoff] at hb
        cases hb
        exact finishPush_data_le _ _ _ _ _ _ _ hinv
    by_cases hty : 63 < ty
    · by_cases h4 : rest.length < 4
      · rw [push_ext_short self pkt b0 o1 o2 o3 ty q w h rest hpend hpay horph
          hty h4] at hpush
        cases hpush
        simpa using hinv
      · obtain ⟨r0, r1, r2, r3, rest2, hrest⟩ := exists_cons4 rest (by omega)
        subst hrest
        rw [push_to_body_ext_any self pkt b0 o1 o2 o3 ty q w h r0 r1 r2 r3 rest2
          hpend hpay horph hty] at hpush
        exact hbody _ _ hpush
    · rw [push_to_body_noext_any self pkt b0 o1 o2 o3 ty q w h rest
        hpend hpay horph (by omega)] at hpush
      exact hbody _ _ hpush
  · -- (2) the guard discards metadata and empties the buffer …
    intro b0 o1 o2 o3 ty q w h tail chunk m hpay hoff hext hmk hmeta hts hover
    have hstep : self.push pkt
        = some ({ self with metadata := none, data := [] }, .ok ()) := by
      rcases hext with ⟨hty, hchunk⟩ | ⟨hty, r0, r1, r2, r3, htail⟩
      · subst hchunk
        rw [push_cont_noext self pkt b0 o1 o2 o3 ty q w h chunk m hpd hpay
          hmeta hty]
        rw [pushBody_cont self pkt.ctx pkt.loss pkt.stream_id pkt.timestamp
          pkt.mark (o1 * 65536 + o2 * 256 + o3) ty q (w * 8) (h * 8) 0 chunk
          (by omega)]
        rw [hmk]
        rw [finishPush_overflow self pkt.ctx pkt.loss pkt.stream_id
          pkt.timestamp chunk m hmeta hts
          (by rw [List.length_append]; omega)]
      · subst htail
        rw [push_cont_ext self pkt b0 o1 o2 o3 ty q w h r0 r1 r2 r3 chunk m
          hpd hpay hmeta hty]
        rw [pushBody_cont self pkt.ctx pkt.loss pkt.stream_id pkt.timestamp
          pkt.mark (o1 * 65536 + o2 * 256 + o3) ty q (w * 8) (h * 8)
          (r0 * 256 + r1) chunk (by omega)]
        rw [hmk]
        rw [finishPush_overflow self pkt.ctx pkt.loss pkt.stream_id
          pkt.timestamp chunk m hmeta hts
          (by rw [List.length_append]; omega)]
    have hres : res = ({ self with metadata := none, data := [] }, .ok ()) := by
      rw [hpush] at hstep
      exact Option.some.inj hstep
    refine ⟨hres, by rw [hres], by rw [hres], ?_⟩
    -- (3) … and the next offset-0 packet starts with no residual bytes
    intro pkt' b0' ty' q' w' h' chunk' slot' hpay' hty' hq' hmk' hslot' hlen'
      hb'
    have hpend' : res.1.pending = none := by
      rw [hres]
      exact hpd
    cases hs : slot' with
    | none =>
      subst hs
      refine ⟨res.1.qtables.set q' (some (make_tables q')), ?_⟩
      have := push_start_gen_miss res.1 pkt' b0' ty' q' w' h' chunk' hpend'
        hpay' hty' hq' hmk' hslot' hb'
      simpa using this
    | some tbl =>
      subst hs
      refine ⟨res.1.qtables, ?_⟩
      have := push_start_gen_hit res.1 pkt' b0' ty' q' w' h' chunk' tbl hpend'
        hpay' hty' hq' hmk' hslot' (by simpa using hlen') hb'
      simpa using this

set_option maxRecDepth 4000 in
/-- Witness for C9: a reassembler holding exactly 2,000,000 buffered
bytes receives a one-byte continuation fragment of its active frame; the
overflow guard fires, the metadata is discarded and the buffer emptied,
within the bound. -/
theorem c9_overflow_guard_witness :
    ((({ dBig with metadata := none, data := [] } : Depacketizer),
        (Except.ok () : Except String Unit)) :
      Depacketizer × Except String Unit).1.data.length ≤ MAX_FRAME_LEN
    ∧ ((({ dBig with metadata := none, data := [] } : Depacketizer),
        (Except.ok () : Except String Unit)) :
      Depacketizer × Except String Unit).1.metadata = none
    ∧ ((({ dBig with metadata := none, data := [] } : Depacketizer),
        (Except.ok () : Except String Unit)) :
      Depacketizer × Except String Unit).1.data = [] := by
  have hdlen : dBig.data.length = 2000000 := by
    rw [show dBig.data = List.replicate 2000000 (0 : Nat) from rfl,
      List.length_replicate]
  have hinvB : dBig.data.length ≤ MAX_FRAME_LEN := by
    rw [hdlen]
    simp only [MAX_FRAME_LEN]
    omega
  have hov : MAX_FRAME_LEN < dBig.data.length + ([1] : List Nat).length := by
    rw [hdlen]
    simp only [MAX_FRAME_LEN, List.length_cons, List.length_nil]
    omega
  have hpush : dBig.push pktMid1
      = some ({ dBig with metadata := none, data := [] }, .ok ()) := by
    rw [push_cont_noext dBig pktMid1 0 0 0 1 0 0 2 2 [1] dBigMeta rfl rfl rfl
      (by omega)]
    rw [pushBody_cont dBig pktMid1.ctx pktMid1.loss pktMid1.stream_id
      pktMid1.timestamp pktMid1.mark (0 * 65536 + 0 * 256 + 1) 0 0 16 16 0 [1]
      (by omega)]
    rw [show pktMid1.mark = false from rfl]
    rw [finishPush_overflow dBig pktMid1.ctx pktMid1.loss pktMid1.stream_id
      pktMid1.timestamp [1] dBigMeta rfl rfl
      (by rw [List.length_append]; exact hov)]
  have h := c9_overflow_guard dBig pktMid1
    ({ dBig with metadata := none, data := [] }, .ok ()) hpush hinvB
  have h2 := h.2 0 0 0 1 0 0 2 2 [1] [1] dBigMeta rfl (by omega)
    (Or.inl ⟨by omega, rfl⟩) rfl rfl rfl hov
  exact ⟨h.1, h2.2.1, h2.2.2.1⟩

theorem pushAll_cons_eq (d d' : Depacketizer) (e : Except String Unit)
    (p : ReceivedPacket) (ps : List ReceivedPacket)
    (h : d.push p = some (d', e)) :
    pushAll d (p :: ps) = pushAll d' ps := by
  simp only [pushAll]
  rw [h]

theorem pushAll_one (d d' : Depacketizer) (e : Except String Unit)
    (p : ReceivedPacket) (h : d.push p = some (d', e)) :
    pushAll d [p] = some d' := by
  simp only [pushAll]
  rw [h]

set_option maxRecDepth 4000 in
/-- Counterexample to claim C4 as stated: one identical total frame
payload (same fixed-header fields, same timestamp, entropy = 1,999,395
zero bytes followed by one `1` byte) split into 2 fragments publishes a
frame, but split into 3 fragments publishes nothing: the middle fragment
tips the buffer over `MAX_FRAME_LEN`, the guard resets the reassembler,
and the final fragment is an orphan — so the outputs are not
byte-identical for every fragmentation. -/
theorem c4_fragmentation_cx :
    (pushAll Depacketizer.new [pktBigStart, pktLast1]).map
        (fun d => d.pending.isSome) = some true
    ∧ (pushAll Depacketizer.new [pktBigStart, pktMid1, pktLast0]).map
        (fun d => d.pending.isSome) = some false := by
  have hslot0 : Depacketizer.new.qtables[0]? = some none := by
    show (List.replicate 255 (none : Option (List Nat)))[0]? = some none
    rw [List.getElem?_replicate]
    simp
  have hb : 605 + (List.replicate 1999395 (0 : Nat)).length ≤ MAX_FRAME_LEN := by
    rw [List.length_replicate]
    norm_num [MAX_FRAME_LEN]
  have hstart := push_start_gen_miss Depacketizer.new pktBigStart 0 0 0 2 2
    (List.replicate 1999395 0) rfl rfl (by omega) (by omega) rfl hslot0 hb
  set M0 : JpegFrameMetadata :=
    { start_ctx := 1
      timestamp := ts0
      parameters := some
        { pixelDimensions := (16, 16)
          rfc6381Codec := ""
          pixelAspect := none
          frameRate := none
          extraData := [] } } with hM0
  set d1 : Depacketizer :=
    { Depacketizer.new with
      qtables := Depacketizer.new.qtables.set 0 (some (make_tables 0))
      data := headerBytes 0 16 16 (make_tables 0) 0 0 ++ List.replicate 1999395 0
      metadata := some M0 } with hd1
  have hstart' : Depacketizer.new.push pktBigStart = some (d1, .ok ()) := hstart
  have hd1len : d1.data.length = 2000000 := by
    show (headerBytes 0 16 16 (make_tables 0) 0 0
      ++ List.replicate 1999395 0).length = 2000000
    rw [List.length_append,
      headerBytes_length 0 16 16 (make_tables 0) 0 0
        (by rw [make_tables_length]; simp [qtSize0, qtSize1]),
      List.length_replicate]
    simp [qtSize0, qtSize1]
  constructor
  · -- two fragments: the frame is published
    have hpub : d1.push pktLast1 = some
        ({ d1 with
            pending := some
              { start_ctx := M0.start_ctx
                end_ctx := pktLast1.ctx
                has_new_parameters := decide (d1.parameters ≠ M0.parameters)
                loss := pktLast1.loss
                timestamp := pktLast1.timestamp
                stream_id := pktLast1.stream_id
                is_random_access_point := false
                is_disposable := true
                data := eoiFix (d1.data ++ [1]) }
            data := []
            metadata := none
            parameters := if decide (d1.parameters ≠ M0.parameters) = true
                          then M0.parameters else d1.parameters },
          .ok ()) := by
      rw [push_cont_noext d1 pktLast1 0 0 0 1 0 0 2 2 [1] M0 rfl rfl rfl
        (by omega)]
      rw [pushBody_cont d1 pktLast1.ctx pktLast1.loss pktLast1.stream_id
        pktLast1.timestamp pktLast1.mark (0 * 65536 + 0 * 256 + 1) 0 0 16 16 0
        [1] (by omega)]
      rw [show pktLast1.mark = true from rfl]
      rw [finishPush_publish d1 pktLast1.ctx pktLast1.loss pktLast1.stream_id
        pktLast1.timestamp [1] M0 rfl rfl
        (by simp only [List.length_append, hd1len]; omega)]
    rw [pushAll_cons_eq Depacketizer.new d1 (.ok ()) pktBigStart [pktLast1]
      hstart']
    rw [pushAll_one d1 _ (.ok ()) pktLast1 hpub]
    rfl
  · -- three fragments: overflow guard fires, final fragment is orphaned
    have hmid : d1.push pktMid1 = some
        ({ d1 with metadata := none, data := [] }, .ok ()) := by
      rw [push_cont_noext d1 pktMid1 0 0 0 1 0 0 2 2 [1] M0 rfl rfl rfl
        (by omega)]
      rw [pushBody_cont d1 pktMid1.ctx pktMid1.loss pktMid1.stream_id
        pktMid1.timestamp pktMid1.mark (0 * 65536 + 0 * 256 + 1) 0 0 16 16 0
        [1] (by omega)]
      rw [show pktMid1.mark = false from rfl]
      rw [finishPush_overflow d1 pktMid1.ctx pktMid1.loss pktMid1.stream_id
        pktMid1.timestamp [1] M0 rfl rfl
        (by simp only [List.length_append, hd1len, MAX_FRAME_LEN,
          List.length_cons, List.length_nil]; omega)]
    have horph : ({ d1 with metadata := none, data := [] } : Depacketizer).push
        pktLast0 = some ({ d1 with metadata := none, data := [] },
          .error "Got JPEG fragment when we have no header") :=
      push_orphan { d1 with metadata := none, data := [] } pktLast0
        0 0 0 1 0 0 2 2 [] rfl rfl (by omega) rfl
    rw [pushAll_cons_eq Depacketizer.new d1 (.ok ()) pktBigStart
      [pktMid1, pktLast0] hstart']
    rw [pushAll_cons_eq d1 { d1 with metadata := none, data := [] } (.ok ())
      pktMid1 [pktLast0] hmid]
    rw [pushAll_one _ { d1 with metadata := none, data := [] } _ pktLast0 horph]
    rfl

/-- One whole-frame run: start fragment with `Q < 128`, any continuation
fragments, a final marked fragment; ends with a published frame whose
bytes are the synthesized header, the concatenated entropy chunks, and
the (possibly absent, see C1) EOI completion. -/
theorem pushAll_frame (d0 : Depacketizer) (T : Int) (b0 ty q w h : Nat)
    (slot : Option (List Nat)) (c1 : List Nat)
    (sp : ReceivedPacket) (ps : List ReceivedPacket) (lp : ReceivedPacket)
    (hpend : d0.pending = none) (hq : q < 128) (hty : ty ≤ 63)
    (hslot : d0.qtables[q]? = some slot)
    (hslot128 : (slot.getD (make_tables q)).length = 128)
    (hsp : sp.payload = b0 :: 0 :: 0 :: 0 :: ty :: q :: w :: h :: c1)
    (hspts : sp.timestamp.timestamp = T) (hspmk : sp.mark = false)
    (hps : ∀ p ∈ ps, IsContFrag T false p)
    (hlp : IsContFrag T true lp)
    (hbound : 605 + (c1 ++ (ps.map chunkOf).flatten ++ chunkOf lp).length
      ≤ MAX_FRAME_LEN) :
    (pushAll d0 (sp :: (ps ++ [lp]))).bind (fun d => d.pending.map VideoFrame.data)
      = some (eoiFix (headerBytes ty (w * 8) (h * 8) (slot.getD (make_tables q)) 0 0
          ++ (c1 ++ ((ps.map chunkOf).flatten ++ chunkOf lp)))) := by
  have hhl : qtSize0 0 + qtSize1 0 ≤ (slot.getD (make_tables q)).length := by
    rw [hslot128]
    simp [qtSize0, qtSize1]
  have hhdrlen : (headerBytes ty (w * 8) (h * 8) (slot.getD (make_tables q))
      0 0).length = 605 := by
    rw [headerBytes_length _ _ _ _ _ _ hhl]
    simp [qtSize0, qtSize1]
  have hlens : c1.length + ((ps.map chunkOf).flatten).length
      + (chunkOf lp).length ≤ MAX_FRAME_LEN - 605 := by
    simp only [List.length_append] at hbound
    omega
  set M : JpegFrameMetadata :=
    { start_ctx := sp.ctx
      timestamp := sp.timestamp
      parameters := some
        { pixelDimensions := (w * 8, h * 8)
          rfc6381Codec := ""
          pixelAspect := none
          frameRate := none
          extraData := [] } } with hM
  obtain ⟨qts1, hstart⟩ : ∃ qts1, d0.push sp = some
      ({ d0 with
          qtables := qts1
          data := headerBytes ty (w * 8) (h * 8) (slot.getD (make_tables q)) 0 0
            ++ c1
          metadata := some M }, .ok ()) := by
    cases hs : slot with
    | none =>
      refine ⟨d0.qtables.set q (some (make_tables q)), ?_⟩
      have := push_start_gen_miss d0 sp b0 ty q w h c1 hpend hsp hty hq hspmk
        (hs ▸ hslot) (by simp only [List.length_append] at hbound; omega)
      simpa [hM] using this
    | some tbl =>
      refine ⟨d0.qtables, ?_⟩
      have := push_start_gen_hit d0 sp b0 ty q w h c1 tbl hpend hsp hty hq hspmk
        (hs ▸ hslot) (by simpa [hs] using hslot128)
        (by simp only [List.length_append] at hbound; omega)
      simpa [hM, hs] using this
  set d1 : Depacketizer :=
    { d0 with
      qtables := qts1
      data := headerBytes ty (w * 8) (h * 8) (slot.getD (make_tables q)) 0 0 ++ c1
      metadata := some M } with hd1
  have hMts : M.timestamp.timestamp = T := hspts
  have hfeed := pushAll_cont T ps d1 M hps hpend rfl hMts
    (by
      show (headerBytes ty (w * 8) (h * 8) (slot.getD (make_tables q)) 0 0
        ++ c1).length + ((ps.map chunkOf).flatten).length ≤ MAX_FRAME_LEN
      rw [List.length_append, hhdrlen]
      simp only [MAX_FRAME_LEN] at hlens ⊢
      omega)
  obtain ⟨hlmk, hlts, lb0, lo1, lo2, lo3, lty, lq, lw, lh, ltail, hlpay, hloff,
    hlty⟩ := hlp
  have hlchunk : chunkOf lp = ltail := by simp [chunkOf, hlpay]
  set d2 : Depacketizer := { d1 with data := d1.data ++ (ps.map chunkOf).flatten }
    with hd2
  have hlast : d2.push lp = some
      ({ d2 with
          pending := some
            { start_ctx := M.start_ctx
              end_ctx := lp.ctx
              has_new_parameters := decide (d2.parameters ≠ M.parameters)
              loss := lp.loss
              timestamp := lp.timestamp
              stream_id := lp.stream_id
              is_random_access_point := false
              is_disposable := true
              data := eoiFix (d2.data ++ ltail) }
          data := []
          metadata := none
          parameters := if decide (d2.parameters ≠ M.parameters) = true
                        then M.parameters else d2.parameters },
        .ok ()) := by
    rw [push_cont_noext d2 lp lb0 lo1 lo2 lo3 lty lq lw lh ltail M hpend hlpay
      rfl hlty]
    rw [pushBody_cont d2 lp.ctx lp.loss lp.stream_id lp.timestamp lp.mark
      (lo1 * 65536 + lo2 * 256 + lo3) lty lq (lw * 8) (lh * 8) 0 ltail
      (by omega)]
    rw [hlmk]
    rw [finishPush_publish d2 lp.ctx lp.loss lp.stream_id lp.timestamp ltail M
      rfl (by rw [hMts, hlts])
      (by
        show 2 ≤ ((d1.data ++ (ps.map chunkOf).flatten) ++ ltail).length
        have : d1.data.length = 605 + c1.length := by
          show (headerBytes ty (w * 8) (h * 8) (slot.getD (make_tables q)) 0 0
            ++ c1).length = 605 + c1.length
          rw [List.length_append, hhdrlen]
        simp only [List.length_append]
        omega)]
  simp only [pushAll]
  rw [hstart]
  simp only [pushAll]
  rw [pushAll_append ps [lp] d1]
  rw [hfeed]
  simp only [Option.bind]
  simp only [pushAll]
  rw [hlast]
  simp only [pushAll, Option.bind, Option.map]
  show some (eoiFix (d2.data ++ ltail)) = _
  rw [hlchunk]
  have : d2.data ++ ltail
      = headerBytes ty (w * 8) (h * 8) (slot.getD (make_tables q)) 0 0
        ++ (c1 ++ ((ps.map chunkOf).flatten ++ ltail)) := by
    show (d1.data ++ (ps.map chunkOf).flatten) ++ ltail = _
    rw [hd1]
    simp [List.append_assoc]
  rw [this]

/-- Claim C4, amended: splitting an identical total frame payload (same
fixed-header fields with `Q < 128` and Type ≤ 63, same timestamp, same
concatenated entropy bytes) into 2 fragments versus any N fragments
yields byte-identical published frame data, **provided** the synthesized
header plus total entropy fits in `MAX_FRAME_LEN` (2,000,000 bytes) — the
overflow guard otherwise discards one fragmentation's frame mid-stream
while a coarser fragmentation still publishes (see the counterexample). -/
theorem c4_fragmentation_amended (d0 : Depacketizer) (T : Int)
    (b0 ty q w h : Nat) (slot : Option (List Nat)) (c1 c1' : List Nat)
    (sp sp' : ReceivedPacket) (ps ps' : List ReceivedPacket)
    (lp lp' : ReceivedPacket)
    (hpend : d0.pending = none) (hq : q < 128) (hty : ty ≤ 63)
    (hslot : d0.qtables[q]? = some slot)
    (hslot128 : (slot.getD (make_tables q)).length = 128)
    (hsp : sp.payload = b0 :: 0 :: 0 :: 0 :: ty :: q :: w :: h :: c1)
    (hsp' : sp'.payload = b0 :: 0 :: 0 :: 0 :: ty :: q :: w :: h :: c1')
    (hspts : sp.timestamp.timestamp = T) (hspts' : sp'.timestamp.timestamp = T)
    (hspmk : sp.mark = false) (hspmk' : sp'.mark = false)
    (hps : ∀ p ∈ ps, IsContFrag T false p)
    (hps' : ∀ p ∈ ps', IsContFrag T false p)
    (hlp : IsContFrag T true lp) (hlp' : IsContFrag T true lp')
    (hcat : c1 ++ ((ps.map chunkOf).flatten ++ chunkOf lp)
          = c1' ++ ((ps'.map chunkOf).flatten ++ chunkOf lp'))
    (hbound : 605 + (c1 ++ (ps.map chunkOf).flatten ++ chunkOf lp).length
      ≤ MAX_FRAME_LEN) :
    (pushAll d0 (sp :: (ps ++ [lp]))).bind (fun d => d.pending.map VideoFrame.data)
      = (pushAll d0 (sp' :: (ps' ++ [lp']))).bind
          (fun d => d.pending.map VideoFrame.data)
    ∧ ((pushAll d0 (sp :: (ps ++ [lp]))).bind
        (fun d => d.pending.map VideoFrame.data)).isSome = true := by
  have hbound' : 605 + (c1' ++ (ps'.map chunkOf).flatten ++ chunkOf lp').length
      ≤ MAX_FRAME_LEN := by
    have h1 : (c1 ++ (ps.map chunkOf).flatten ++ chunkOf lp).length
        = (c1' ++ (ps'.map chunkOf).flatten ++ chunkOf lp').length := by
      have := congrArg List.length hcat
      simpa [List.append_assoc] using this
    omega
  have hrun := pushAll_frame d0 T b0 ty q w h slot c1 sp ps lp hpend hq hty
    hslot hslot128 hsp hspts hspmk hps hlp hbound
  have hrun' := pushAll_frame d0 T b0 ty q w h slot c1' sp' ps' lp' hpend hq hty
    hslot hslot128 hsp' hspts' hspmk' hps' hlp' hbound'
  rw [hrun, hrun', hcat]
  simp

set_option maxRecDepth 40000 in
/-- Witness for amended C4: entropy `[9, 8, 7]` split as
`[9, 8] / [7]` (2 fragments) versus `[9] / [8] / [7]` (3 fragments). -/
theorem c4_fragmentation_amended_witness :
    ((pushAll Depacketizer.new [pktSplitA1, pktSplitA2]).bind
        (fun d => d.pending.map VideoFrame.data)
      = (pushAll Depacketizer.new [pktSplitB1, pktSplitB2, pktSplitA2]).bind
        (fun d => d.pending.map VideoFrame.data))
    ∧ ((pushAll Depacketizer.new [pktSplitA1, pktSplitA2]).bind
        (fun d => d.pending.map VideoFrame.data)).isSome = true := by
  refine c4_fragmentation_amended Depacketizer.new 0 0 0 0 2 2 none [9, 8] [9]
    pktSplitA1 pktSplitB1 [] [pktSplitB2] pktSplitA2 pktSplitA2
    rfl (by omega) (by omega) ?_ (by simp [make_tables_length]) rfl rfl rfl rfl
    rfl rfl (by simp) ?_ ?_ ?_ rfl (by simp [chunkOf, MAX_FRAME_LEN, pktSplitA2])
  · show (List.replicate 255 (none : Option (List Nat)))[0]? = some none
    rw [List.getElem?_replicate]
    simp
  · intro p hp
    simp at hp
    subst hp
    exact ⟨rfl, rfl, 0, 0, 0, 1, 0, 0, 2, 2, [8], rfl, by omega, by omega⟩
  · exact ⟨rfl, rfl, 0, 0, 0, 1, 0, 0, 2, 2, [7], rfl, by omega, by omega⟩
  · exact ⟨rfl, rfl, 0, 0, 0, 1, 0, 0, 2, 2, [7], rfl, by omega, by omega⟩

end RtpJpeg
